import Mathlib

/-!
Verification of the `riverviews` flood-monitoring core (`flomon_service`).

Shallow embedding conventions:
* Rust `f64` and `rust_decimal::Decimal` values are modelled as exact
  rationals (`ℚ`).  Every comparison the verified claims depend on has a
  margin far larger than any double-rounding, so the rational model is
  faithful for the inputs considered.
* `chrono::DateTime<Utc>` timestamps are modelled as integers at the
  granularity the surrounding code observes them (`num_hours` call sites
  use hours, `num_minutes` call sites use minutes).
* SQL tables touched through `INSERT ... ON CONFLICT ... DO NOTHING` are
  modelled as row lists with an explicit keyed conditional insert.
* Fallible Rust paths (`Result`, the `?` operator) are modelled by
  `Except`/`Option` with the same propagation structure.
-/

namespace Riverviews

/-! ## ingest/peak_flow.rs -/

/-- `FloodSeverity` from `src/ingest/peak_flow.rs`. -/
inductive FloodSeverity
  | Flood
  | Moderate
  | Major
deriving DecidableEq, Repr

/-- `FloodSeverity::as_str` from `src/ingest/peak_flow.rs`. -/
def FloodSeverity.as_str : FloodSeverity → String
  | .Flood => "flood"
  | .Moderate => "moderate"
  | .Major => "major"

/-- `FloodSeverity::from_stage` from `src/ingest/peak_flow.rs` (lines 56-72):
nested `if peak >= major / moderate / flood` classification, else `None`. -/
def FloodSeverity.from_stage (peak_stage_ft flood_stage_ft moderate_stage_ft major_stage_ft : ℚ) :
    Option FloodSeverity :=
  if peak_stage_ft ≥ major_stage_ft then
    some FloodSeverity.Major
  else if peak_stage_ft ≥ moderate_stage_ft then
    some FloodSeverity.Moderate
  else if peak_stage_ft ≥ flood_stage_ft then
    some FloodSeverity.Flood
  else
    none

/-! ## ingest/cwms.rs — backwater detection -/

/-- `detect_backwater` from `src/ingest/cwms.rs` (lines 280-286). -/
def detect_backwater (mississippi_stage_ft illinois_stage_ft threshold_ft : ℚ) : Bool :=
  (mississippi_stage_ft - illinois_stage_ft) > threshold_ft

/-- `detect_hydraulic_control_loss` from `src/ingest/cwms.rs` (lines 303-309). -/
def detect_hydraulic_control_loss (pool_elevation_ft tailwater_elevation_ft margin_ft : ℚ) : Bool :=
  (tailwater_elevation_ft + margin_ft) ≥ pool_elevation_ft

/-- `classify_backwater_severity` from `src/ingest/cwms.rs` (lines 312-324). -/
def classify_backwater_severity (differential_ft : ℚ) : String :=
  if differential_ft > 10 then "extreme"
  else if differential_ft > 5 then "major"
  else if differential_ft > 2 then "moderate"
  else if differential_ft > 1/2 then "minor"
  else "none"

/-- The inline severity ladder coded in `main` of `src/bin/detect_backwater.rs`
(lines 142-151): `EXTREME` / `MAJOR` / `MODERATE` / `MINOR` on the stage
differential. -/
def backwater_bin_severity (differential : ℚ) : String :=
  if differential > 10 then "EXTREME"
  else if differential > 5 then "MAJOR"
  else if differential > 2 then "MODERATE"
  else "MINOR"

end Riverviews

namespace Riverviews

/-! ### Claim C2 — severity classification from peak stage -/

/-- C2: for strictly ascending thresholds flood < moderate < major,
`FloodSeverity::from_stage` returns `Major` iff stage ≥ major, else
`Moderate` iff stage ≥ moderate, else `Flood` iff stage ≥ flood, else
`None`; and concretely against thresholds 18.0/20.0/22.0 stage 18.5 is
flood, 20.5 moderate, 24.0 major and 17.5 no event. -/
theorem from_stage_band_characterization :
    (∀ s f m M : ℚ, f < m → m < M →
      (FloodSeverity.from_stage s f m M = some FloodSeverity.Major ↔ M ≤ s) ∧
      (FloodSeverity.from_stage s f m M = some FloodSeverity.Moderate ↔ m ≤ s ∧ s < M) ∧
      (FloodSeverity.from_stage s f m M = some FloodSeverity.Flood ↔ f ≤ s ∧ s < m) ∧
      (FloodSeverity.from_stage s f m M = none ↔ s < f)) ∧
    FloodSeverity.from_stage 18.5 18 20 22 = some FloodSeverity.Flood ∧
    FloodSeverity.from_stage 20.5 18 20 22 = some FloodSeverity.Moderate ∧
    FloodSeverity.from_stage 24 18 20 22 = some FloodSeverity.Major ∧
    FloodSeverity.from_stage 17.5 18 20 22 = none := by
  refine ⟨?_, by norm_num [FloodSeverity.from_stage], by norm_num [FloodSeverity.from_stage],
    by norm_num [FloodSeverity.from_stage], by norm_num [FloodSeverity.from_stage]⟩
  intro s f m M hfm hmM
  unfold FloodSeverity.from_stage
  split_ifs with h1 h2 h3
  · exact ⟨iff_of_true rfl h1,
      iff_of_false (by simp) (fun h => absurd h.2 (not_lt.mpr h1)),
      iff_of_false (by simp) (fun h => absurd h.2 (not_lt.mpr (le_trans hmM.le h1))),
      iff_of_false (by simp) (fun h => absurd h (not_lt.mpr (le_trans (hfm.trans hmM).le h1)))⟩
  · exact ⟨iff_of_false (by simp) h1,
      iff_of_true rfl ⟨h2, not_le.mp h1⟩,
      iff_of_false (by simp) (fun h => absurd h.2 (not_lt.mpr h2)),
      iff_of_false (by simp) (fun h => absurd h (not_lt.mpr (le_trans hfm.le h2)))⟩
  · exact ⟨iff_of_false (by simp) h1,
      iff_of_false (by simp) (fun h => h2 h.1),
      iff_of_true rfl ⟨h3, not_le.mp h2⟩,
      iff_of_false (by simp) (fun h => absurd h3 (not_le.mpr h))⟩
  · exact ⟨iff_of_false (by simp) h1,
      iff_of_false (by simp) (fun h => h2 h.1),
      iff_of_false (by simp) (fun h => h3 h.1),
      iff_of_true rfl (not_le.mp h3)⟩

/-- Witness for C2: instantiates the band characterization at stage 18.5
against thresholds 18/20/22. -/
theorem from_stage_band_characterization_witness :
    FloodSeverity.from_stage 18.5 18 20 22 = some FloodSeverity.Flood ∧
    (FloodSeverity.from_stage 18.5 18 20 22 = none ↔ (18.5 : ℚ) < 18) :=
  ⟨from_stage_band_characterization.2.1,
    (from_stage_band_characterization.1 18.5 18 20 22 (by norm_num) (by norm_num)).2.2.2⟩

end Riverviews

namespace Riverviews

/-! ### Claim C4 — backwater detection and the fixed severity ladder

The library ladder uses strict `>` at every band, so a differential of
exactly 5.0 ft falls in the `moderate` band, not `major` as the claim
asserts.  The code agrees with its own unit tests (`7.0 → major`,
`3.0 → moderate`); the spec example is off by the band boundary. -/

/-- Counterexample to C4: at boundary 435.0, monitored 430.0 (threshold
2.0) backwater is detected, but the 5.0 ft differential is classified
`"moderate"` by the fixed ladder, not in the major band. -/
theorem backwater_major_band_counterexample :
    detect_backwater 435 430 2 = true ∧
    classify_backwater_severity (435 - 430) = "moderate" ∧
    ("moderate" : String) ≠ "major" := by
  refine ⟨by norm_num [detect_backwater], ?_, by decide⟩
  norm_num [classify_backwater_severity]

/-- C4 (amended): backwater is flagged iff boundary − monitored > threshold;
at boundary 435.0 / monitored 430.0 / threshold 2.0 backwater is detected
and the ladder puts the 5.0 ft differential in the moderate band (major
requires strictly more than 5.0 ft); at boundary 430.0 / monitored 435.0
backwater is not detected. -/
theorem detect_backwater_iff_differential :
    (∀ b i t : ℚ, detect_backwater b i t = true ↔ b - i > t) ∧
    detect_backwater 435 430 2 = true ∧
    classify_backwater_severity (435 - 430) = "moderate" ∧
    (∀ d : ℚ, classify_backwater_severity d = "major" ↔ 5 < d ∧ d ≤ 10) ∧
    detect_backwater 430 435 2 = false := by
  refine ⟨?_, by norm_num [detect_backwater], by norm_num [classify_backwater_severity], ?_,
    by norm_num [detect_backwater]⟩
  · intro b i t
    simp [detect_backwater]
  · intro d
    unfold classify_backwater_severity
    split_ifs with h1 h2 h3 h4
    · exact iff_of_false (by decide) (fun h => absurd h.2 (not_le.mpr h1))
    · exact iff_of_true rfl ⟨h2, not_lt.mp h1⟩
    · exact iff_of_false (by decide) (fun h => h2 h.1)
    · exact iff_of_false (by decide) (fun h => h3 (lt_trans (by norm_num) h.1))
    · exact iff_of_false (by decide) (fun h => h4 (lt_trans (by norm_num) h.1))

end Riverviews

namespace Riverviews

/-! ### Claim C10 — inline binary ladder vs library ladder

The inline ladder in `src/bin/detect_backwater.rs` has no `none` band: any
differential at or below 2.0 ft (in fact at or below 0.5 ft as well) is
reported `MINOR`, while the library returns `"none"` for differentials at
or below 0.5 ft.  The two ladders agree, up to letter case, exactly on
differentials strictly above 0.5 ft. -/

/-- Upper-case rendering of the five library severity labels: the
"same label up to letter case" correspondence the claim compares with. -/
def severity_label_upper : String → String
  | "none" => "NONE"
  | "minor" => "MINOR"
  | "moderate" => "MODERATE"
  | "major" => "MAJOR"
  | "extreme" => "EXTREME"
  | s => s

/-- Counterexample to C10: at differential 0.3 (which is ≤ 2.0) the inline
ladder yields `MINOR` while the library yields `none` — not the same label
up to letter case. -/
theorem backwater_ladders_disagree_below_half_ft :
    ((3 : ℚ)/10 ≤ 2) ∧
    backwater_bin_severity ((3 : ℚ)/10) = "MINOR" ∧
    classify_backwater_severity ((3 : ℚ)/10) = "none" ∧
    severity_label_upper "none" ≠ "MINOR" := by
  refine ⟨by norm_num, by norm_num [backwater_bin_severity], ?_, by decide⟩
  norm_num [classify_backwater_severity]

/-- C10 (amended): for every differential strictly above 0.5 ft the inline
ladder of the `detect_backwater` binary and the library
`classify_backwater_severity` assign the same severity label up to letter
case; at or below 0.5 ft the binary says `MINOR` while the library says
`none`. -/
theorem backwater_ladders_agree_above_half_ft :
    (∀ d : ℚ, 1/2 < d →
      backwater_bin_severity d = severity_label_upper (classify_backwater_severity d)) ∧
    (∀ d : ℚ, d ≤ 1/2 →
      backwater_bin_severity d = "MINOR" ∧ classify_backwater_severity d = "none") := by
  constructor
  · intro d hd
    unfold backwater_bin_severity classify_backwater_severity
    split_ifs <;> decide
  · intro d hd
    have h10 : ¬ d > 10 := by intro h; linarith
    have h5 : ¬ d > 5 := by intro h; linarith
    have h2 : ¬ d > 2 := by intro h; linarith
    have hh : ¬ d > 1/2 := by intro h; linarith
    unfold backwater_bin_severity classify_backwater_severity
    rw [if_neg h10, if_neg h5, if_neg h2, if_neg h10, if_neg h5, if_neg h2, if_neg hh]
    exact ⟨rfl, rfl⟩

/-- Witness for C10 (amended): at differential 3.0 both ladders yield the
moderate band (`MODERATE` / `moderate`), and at 0.3 the divergent bands are
as stated. -/
theorem backwater_ladders_agree_above_half_ft_witness :
    backwater_bin_severity 3 = severity_label_upper (classify_backwater_severity 3) ∧
    (backwater_bin_severity ((3 : ℚ)/10) = "MINOR" ∧
      classify_backwater_severity ((3 : ℚ)/10) = "none") :=
  ⟨backwater_ladders_agree_above_half_ft.1 3 (by norm_num),
    backwater_ladders_agree_above_half_ft.2 ((3 : ℚ)/10) (by norm_num)⟩

end Riverviews

namespace Riverviews

/-! ## analysis/flood_events.rs — precursor window detection -/

/-- `AnalysisConfig` from `src/analysis/flood_events.rs` (lines 41-57). -/
structure AnalysisConfig where
  precursor_lookback_days : Int
  significant_rise_threshold_ft : ℚ
  rise_rate_threshold_ft_per_day : ℚ
  post_peak_window_days : Int
  backwater_differential_threshold_ft : ℚ
deriving Repr, DecidableEq

/-- `impl Default for AnalysisConfig` (lines 59-69): lookback 14 days,
significant rise 2.0 ft, rise rate 0.5 ft/day, post-peak 7 days,
backwater differential 2.0 ft. -/
def AnalysisConfig.default : AnalysisConfig :=
  { precursor_lookback_days := 14
    significant_rise_threshold_ft := 2
    rise_rate_threshold_ft_per_day := 1/2
    post_peak_window_days := 7
    backwater_differential_threshold_ft := 2 }

/-- `EventObservation` from `src/analysis/flood_events.rs` (lines 83-88);
timestamps in hours (the code only observes durations through
`num_hours`). -/
structure EventObservation where
  timestamp : Int
  stage_ft : Option ℚ
  discharge_cfs : Option ℚ
deriving Repr, DecidableEq

/-- `PrecursorWindow` from `src/analysis/flood_events.rs` (lines 91-99);
`window_end` models the `end` field (a Lean keyword). -/
structure PrecursorWindow where
  start : Int
  window_end : Int
  total_rise_ft : ℚ
  rise_duration_hours : Int
  average_rise_rate_ft_per_day : ℚ
  max_rise_rate_ft_per_day : ℚ
deriving Repr, DecidableEq

/-- `Iterator::max` over rationals, as used for
`observations.iter().filter_map(|o| o.stage_ft).max()`. -/
def maxQ? : List ℚ → Option ℚ
  | [] => none
  | x :: xs =>
    match maxQ? xs with
    | none => some x
    | some m => some (if x > m then x else m)

/-- The backward scan of `detect_precursor_window` (lines 232-245): iterate
`enumerate().rev()`; observations without a stage are skipped; while
`peak − stage ≥ threshold` record the index and keep scanning; at the first
stage-bearing observation below threshold, stop (`break`) with the index
recorded so far. -/
def backScanAux (pairs : List (Nat × EventObservation)) (peak threshold : ℚ)
    (acc : Option Nat) : Option Nat :=
  match pairs with
  | [] => acc
  | (i, obs) :: rest =>
    match obs.stage_ft with
    | none => backScanAux rest peak threshold acc
    | some stage =>
      if peak - stage ≥ threshold then backScanAux rest peak threshold (some i)
      else acc

/-- The `windows(2)` maximum-rise-rate fold of `detect_precursor_window`
(lines 263-277): for each consecutive pair with both stages present and a
positive hour gap, rate = (Δstage / hours) · 24; keep the running max. -/
def maxRiseRateAux : List EventObservation → ℚ → ℚ
  | a :: b :: rest, acc =>
    let acc' :=
      match a.stage_ft, b.stage_ft with
      | some s1, some s2 =>
        let hours : Int := b.timestamp - a.timestamp
        if (hours : ℚ) > 0 then max acc (((s2 - s1) / (hours : ℚ)) * 24) else acc
      | _, _ => acc
    maxRiseRateAux (b :: rest) acc'
  | _, acc => acc

/-- `detect_precursor_window` from `src/analysis/flood_events.rs`
(lines 211-287). -/
def detect_precursor_window (observations : List EventObservation)
    (peak_time : Int) (config : AnalysisConfig) : Option PrecursorWindow :=
  if observations.isEmpty then none
  else
    match maxQ? (observations.filterMap (fun o => o.stage_ft)) with
    | none => none
    | some peak_stage =>
      match backScanAux observations.enum.reverse peak_stage
          config.significant_rise_threshold_ft none with
      | none => none
      | some start_idx =>
        match observations.get? start_idx with
        | none => none
        | some start_obs =>
          match start_obs.stage_ft with
          | none => none
          | some start_stage =>
            let total_rise := peak_stage - start_stage
            let duration_hours : Int := peak_time - start_obs.timestamp
            let duration_days : ℚ := (duration_hours : ℚ) / 24
            let avg_rise_rate := if duration_days > 0 then total_rise / duration_days else 0
            some { start := start_obs.timestamp
                   window_end := peak_time
                   total_rise_ft := total_rise
                   rise_duration_hours := duration_hours
                   average_rise_rate_ft_per_day := avg_rise_rate
                   max_rise_rate_ft_per_day :=
                     maxRiseRateAux (observations.drop start_idx) 0 }

/-- The observation series of the module's own unit test
`test_detect_precursor_window` (lines 434-475): a monotone rise
15.0 → 16.5 → 18.2 → 19.8 → 21.5 ft over five days, one observation per
day, the last at the crest. -/
def testObservations (crest : Int) : List EventObservation :=
  [ { timestamp := crest - 120, stage_ft := some 15, discharge_cfs := none }
  , { timestamp := crest - 96, stage_ft := some (33/2), discharge_cfs := none }
  , { timestamp := crest - 72, stage_ft := some (91/5), discharge_cfs := none }
  , { timestamp := crest - 48, stage_ft := some (99/5), discharge_cfs := none }
  , { timestamp := crest, stage_ft := some (43/2), discharge_cfs := none } ]

end Riverviews

namespace Riverviews

/-! ### Claim C1 — precursor window detection

The backward scan starts at the last observation.  When the last
observation is the peak itself, its rise above the peak is `0 < threshold`,
so the loop breaks immediately with no start index and the function
returns `None` — even though earlier observations sit ≥ threshold below
the peak.  The module's own unit test asserts `is_some()` with total rise
6.5 on exactly this input, so the code contradicts its own test. -/

/-- C1 evidence: on the code's own test series (peak 21.5 at the crest,
threshold 2.0), the maximum stage is 21.5, the first observation is 6.5 ft
(≥ 2.0) below it, yet `detect_precursor_window` returns `none` — against
the claim, the spec and the unit test, which all expect a window with
total rise 6.5. -/
theorem detect_precursor_window_none_on_own_test :
    detect_precursor_window (testObservations 0) 0 AnalysisConfig.default = none ∧
    maxQ? ((testObservations 0).filterMap (fun o => o.stage_ft)) = some (43/2) ∧
    (43 : ℚ)/2 - 15 ≥ AnalysisConfig.default.significant_rise_threshold_ft := by
  refine ⟨?_, ?_, by norm_num [AnalysisConfig.default]⟩
  · norm_num [detect_precursor_window, testObservations, maxQ?, backScanAux,
      AnalysisConfig.default, List.enum]
  · norm_num [testObservations, maxQ?]

end Riverviews

namespace Riverviews

/-! ## monitor/mod.rs — staleness cache -/

/-- `StationStatus` from `src/monitor/mod.rs` (lines 52-58). -/
inductive StationStatus
  | Active
  | Degraded
  | Offline
  | Unknown
deriving Repr, DecidableEq

/-- `StationStatus::from_str` from `src/monitor/mod.rs` (lines 60-69). -/
def StationStatus.from_str (s : String) : StationStatus :=
  if s = "active" then .Active
  else if s = "degraded" then .Degraded
  else if s = "offline" then .Offline
  else .Unknown

/-- `StationCache` from `src/monitor/mod.rs` (lines 41-50); times in
minutes (the code observes them through `num_minutes`). -/
structure StationCache where
  site_code : String
  parameter_code : String
  latest_reading_time : Option Int
  latest_reading_value : Option ℚ
  staleness_threshold_minutes : Int
  status : StationStatus
  last_poll_attempted : Option Int
deriving Repr, DecidableEq

/-- `MonitoringCache` from `src/monitor/mod.rs` (lines 73-76): a map keyed
by `(site_code, parameter_code)`, modelled as an association list. -/
structure MonitoringCache where
  cache : List ((String × String) × StationCache)
  last_refresh : Int

/-- `MonitoringCache::get` (lines 125-127). -/
def MonitoringCache.get (c : MonitoringCache) (site_code parameter_code : String) :
    Option StationCache :=
  c.cache.lookup (site_code, parameter_code)

/-- `MonitoringCache::is_stale` (lines 130-138): a cached entry with a
latest reading time is stale iff its age in minutes strictly exceeds its
threshold; anything else — unknown key, or entry without a reading time —
is stale by default. -/
def MonitoringCache.is_stale (c : MonitoringCache) (site_code parameter_code : String)
    (now : Int) : Bool :=
  match c.get site_code parameter_code with
  | some cached =>
    match cached.latest_reading_time with
    | some reading_time => (now - reading_time) > cached.staleness_threshold_minutes
    | none => true
  | none => true

/-- A cache entry shaped like the one in the module's unit tests
(lines 283-291): 60-minute threshold, active. -/
def sampleCacheEntry (latest : Int) : StationCache :=
  { site_code := "05568500"
    parameter_code := "00060"
    latest_reading_time := some latest
    latest_reading_value := some 42000
    staleness_threshold_minutes := 60
    status := StationStatus.Active
    last_poll_attempted := some 1000 }

/-- A one-entry cache holding `sampleCacheEntry`. -/
def sampleCache (latest : Int) : MonitoringCache :=
  { cache := [(("05568500", "00060"), sampleCacheEntry latest)], last_refresh := 0 }

end Riverviews

namespace Riverviews

/-! ### Claim C5 — staleness check -/

/-- C5: `is_stale` is true for any key absent from the cache, and for a
cached latest reading time it is true exactly when the age strictly
exceeds the entry threshold; concretely a 90-minute-old reading against a
60-minute threshold is stale, a 10-minute-old one is not, and an unknown
site is stale. -/
theorem is_stale_characterization :
    (∀ (c : MonitoringCache) (site param : String) (now : Int),
      c.get site param = none → c.is_stale site param now = true) ∧
    (∀ (c : MonitoringCache) (site param : String) (now : Int)
      (entry : StationCache) (t : Int),
      c.get site param = some entry → entry.latest_reading_time = some t →
      (c.is_stale site param now = true ↔
        now - t > entry.staleness_threshold_minutes)) ∧
    (sampleCache (1000 - 90)).is_stale "05568500" "00060" 1000 = true ∧
    (sampleCache (1000 - 10)).is_stale "05568500" "00060" 1000 = false ∧
    (sampleCache (1000 - 10)).is_stale "99999999" "00060" 1000 = true := by
  refine ⟨?_, ?_, by decide, by decide, by decide⟩
  · intro c site param now h
    simp [MonitoringCache.is_stale, h]
  · intro c site param now entry t h1 h2
    simp [MonitoringCache.is_stale, h1, h2]

/-- Witness for C5: instantiates the age characterization on the sample
cache with a 90-minute-old reading. -/
theorem is_stale_characterization_witness :
    (sampleCache 910).is_stale "05568500" "00060" 1000 = true ↔
      (1000 : Int) - 910 > (sampleCacheEntry 910).staleness_threshold_minutes :=
  is_stale_characterization.2.1 (sampleCache 910) "05568500" "00060" 1000
    (sampleCacheEntry 910) 910 (by decide) (by decide)

end Riverviews

namespace Riverviews

/-! ## model.rs — canonical reading model

`src/model.rs` is declared in `lib.rs` but absent from the snapshot; the
two types below are reconstructed from their literal constructions and
pattern matches in `src/ingest/usgs.rs` and the spec's canonical Reading
model (spec section 3) and error taxonomy (spec section 7). -/

/-- Modelled from the spec: `GaugeReading` from the missing `src/model.rs`
(the canonical Reading), fields as constructed in
`src/ingest/usgs.rs` lines 251-259.  The numeric value is an exact
rational; the timestamp is kept as the wire string, as in the source. -/
structure GaugeReading where
  site_code : String
  site_name : String
  parameter_code : String
  unit : String
  value : ℚ
  datetime : String
  qualifier : String
deriving Repr, DecidableEq

/-- Modelled from the spec: `NwisError` from the missing `src/model.rs`;
the two variants used by `src/ingest/usgs.rs` (spec section 7 error
taxonomy: ParseError, NoDataAvailable), each carrying a context string. -/
inductive NwisError
  | ParseError (msg : String)
  | NoDataAvailable (msg : String)
deriving Repr, DecidableEq

/-! ## ingest/usgs.rs — WaterML JSON parsing

The serde structures (lines 19-82) below model the *deserialized* wire
payload; `parse_iv_response` / `parse_dv_response` take an
`Option IvResponse` whose `none` stands for a payload `serde_json` could
not decode.  A `ValueEntry.value` is the result of parsing the wire value
string to a number (`none` = the string does not parse). -/

/-- `SiteCode` (lines 46-49). -/
structure SiteCode where
  value : String
deriving Repr, DecidableEq

/-- `SourceInfo` (lines 38-44). -/
structure SourceInfo where
  site_name : String
  site_code : List SiteCode
deriving Repr, DecidableEq

/-- `VariableCode` (lines 60-63). -/
structure VariableCode where
  value : String
deriving Repr, DecidableEq

/-- `Unit` (lines 65-69); named `UnitInfo` because `Unit` is taken in Lean. -/
structure UnitInfo where
  unit_code : String
deriving Repr, DecidableEq

/-- `Variable` (lines 51-58); named `VariableInfo` because `variable` is a
Lean keyword. -/
structure VariableInfo where
  variable_code : List VariableCode
  unit : UnitInfo
  no_data_value : ℚ
deriving Repr, DecidableEq

/-- `ValueEntry` (lines 76-82): `value` holds the parse result of the wire
value string. -/
structure ValueEntry where
  value : Option ℚ
  qualifiers : List String
  date_time : String
deriving Repr, DecidableEq

/-- `Values` (lines 71-74). -/
structure Values where
  value : List ValueEntry
deriving Repr, DecidableEq

/-- `TimeSeries` (lines 30-36); the Rust field `variable` is named
`variable_info` (Lean keyword). -/
structure TimeSeries where
  source_info : SourceInfo
  variable_info : VariableInfo
  values : List Values
deriving Repr, DecidableEq

/-- `ValueWrapper` (lines 24-28). -/
structure ValueWrapper where
  time_series : List TimeSeries
deriving Repr, DecidableEq

/-- `IvResponse` (lines 19-22). -/
structure IvResponse where
  value : ValueWrapper
deriving Repr, DecidableEq

/-- One iteration of the `for series in response.value.time_series` loop of
`parse_iv_response` (lines 191-260): metadata extraction with `?`-style
error propagation, `continue` on an empty value array (`.ok none`), the
tail entry via `.last()`, a `ParseError` if its value string does not
parse, `continue` if it is within 0.1 of the series sentinel, otherwise
the single `GaugeReading` for the series. -/
def processSeriesIv (series : TimeSeries) : Except NwisError (Option GaugeReading) :=
  match series.source_info.site_code.head? with
  | none => .error (.ParseError "Missing siteCode")
  | some sc =>
    match series.variable_info.variable_code.head? with
    | none => .error (.ParseError "Missing variableCode")
    | some vc =>
      match series.values.head? with
      | none => .error (.ParseError "Missing values array")
      | some values_wrapper =>
        if values_wrapper.value.isEmpty then .ok none
        else
          match values_wrapper.value.getLast? with
          | none => .error (.ParseError "Empty value array")
          | some latest =>
            match latest.value with
            | none => .error (.ParseError "Failed to parse value")
            | some v =>
              if |v - series.variable_info.no_data_value| < 1/10 then .ok none
              else
                .ok (some
                  { site_code := sc.value
                    site_name := series.source_info.site_name
                    parameter_code := vc.value
                    unit := series.variable_info.unit.unit_code
                    value := v
                    datetime := latest.date_time
                    qualifier := latest.qualifiers.head?.getD "P" })

/-- The series loop of `parse_iv_response`: first error aborts the whole
parse, `continue`d series contribute nothing. -/
def goSeriesIv : List TimeSeries → Except NwisError (List GaugeReading)
  | [] => .ok []
  | s :: rest =>
    match processSeriesIv s with
    | .error e => .error e
    | .ok none => goSeriesIv rest
    | .ok (some r) =>
      match goSeriesIv rest with
      | .error e => .error e
      | .ok rs => .ok (r :: rs)

/-- `parse_iv_response` from `src/ingest/usgs.rs` (lines 176-270). -/
def parse_iv_response (input : Option IvResponse) : Except NwisError (List GaugeReading) :=
  match input with
  | none => .error (.ParseError "JSON deserialization failed")
  | some response =>
    if response.value.time_series.isEmpty then
      .error (.NoDataAvailable "No timeSeries entries in response")
    else
      match goSeriesIv response.value.time_series with
      | .error e => .error e
      | .ok readings =>
        if readings.isEmpty then
          .error (.NoDataAvailable "All timeSeries entries were empty or contained sentinel values")
        else .ok readings

/-- One iteration of the series loop of `parse_dv_response`
(lines 297-366): same metadata handling, but ALL entries are processed —
unparsable entries are logged and skipped, sentinel entries skipped, every
other entry yields a reading in order. -/
def processSeriesDv (series : TimeSeries) : Except NwisError (List GaugeReading) :=
  match series.source_info.site_code.head? with
  | none => .error (.ParseError "Missing siteCode")
  | some sc =>
    match series.variable_info.variable_code.head? with
    | none => .error (.ParseError "Missing variableCode")
    | some vc =>
      match series.values.head? with
      | none => .error (.ParseError "Missing values array")
      | some values_wrapper =>
        if values_wrapper.value.isEmpty then .ok []
        else
          .ok (values_wrapper.value.filterMap (fun entry =>
            match entry.value with
            | none => none
            | some v =>
              if |v - series.variable_info.no_data_value| < 1/10 then none
              else
                some
                  { site_code := sc.value
                    site_name := series.source_info.site_name
                    parameter_code := vc.value
                    unit := series.variable_info.unit.unit_code
                    value := v
                    datetime := entry.date_time
                    qualifier := entry.qualifiers.head?.getD "P" }))

/-- The series loop of `parse_dv_response`: readings of all series are
concatenated in order; the first error aborts the parse. -/
def goSeriesDv : List TimeSeries → Except NwisError (List GaugeReading)
  | [] => .ok []
  | s :: rest =>
    match processSeriesDv s with
    | .error e => .error e
    | .ok rs =>
      match goSeriesDv rest with
      | .error e => .error e
      | .ok rest_rs => .ok (rs ++ rest_rs)

/-- `parse_dv_response` from `src/ingest/usgs.rs` (lines 282-377). -/
def parse_dv_response (input : Option IvResponse) : Except NwisError (List GaugeReading) :=
  match input with
  | none => .error (.ParseError "JSON deserialization failed")
  | some response =>
    if response.value.time_series.isEmpty then
      .error (.NoDataAvailable "No timeSeries entries in response")
    else
      match goSeriesDv response.value.time_series with
      | .error e => .error e
      | .ok readings =>
        if readings.isEmpty then
          .error (.NoDataAvailable "All timeSeries entries were empty or contained sentinel values")
        else .ok readings

end Riverviews

namespace Riverviews

/-! ### Well-formedness predicates over wire series -/

/-- A series whose metadata arrays are all nonempty (siteCode,
variableCode, values) — the shapes whose absence raises `ParseError`. -/
def seriesMetaOk (s : TimeSeries) : Prop :=
  s.source_info.site_code ≠ [] ∧ s.variable_info.variable_code ≠ [] ∧ s.values ≠ []

/-- A series whose (first) value list is empty or consists only of entries
that parse to a value within 0.1 of the series no-data sentinel. -/
def seriesEmptyOrSentinel (s : TimeSeries) : Prop :=
  ∀ w, s.values.head? = some w →
    (w.value = [] ∨
      ∀ e ∈ w.value, ∃ v, e.value = some v ∧ |v - s.variable_info.no_data_value| < 1/10)

/-- A series whose chronologically last entry, when present, parses. -/
def seriesLastParses (s : TimeSeries) : Prop :=
  ∀ w, s.values.head? = some w → ∀ e, w.value.getLast? = some e → e.value ≠ none

/-- The per-series tail reading of the amended C6 statement: the reading
produced from the chronologically last entry when that entry parses and is
not within 0.1 of the sentinel; `none` otherwise (no fallback to earlier
entries). -/
def seriesTailReading (s : TimeSeries) : Option GaugeReading :=
  match s.source_info.site_code.head?, s.variable_info.variable_code.head?,
      s.values.head? with
  | some sc, some vc, some w =>
    match w.value.getLast? with
    | none => none
    | some latest =>
      match latest.value with
      | none => none
      | some v =>
        if |v - s.variable_info.no_data_value| < 1/10 then none
        else
          some
            { site_code := sc.value
              site_name := s.source_info.site_name
              parameter_code := vc.value
              unit := s.variable_info.unit.unit_code
              value := v
              datetime := latest.date_time
              qualifier := latest.qualifiers.head?.getD "P" }
  | _, _, _ => none

/-! ### Helper lemmas on the series loops -/

theorem processSeriesIv_ok_none_of_sentinel (s : TimeSeries)
    (hm : seriesMetaOk s) (hs : seriesEmptyOrSentinel s) :
    processSeriesIv s = .ok none := by
  obtain ⟨h1, h2, h3⟩ := hm
  obtain ⟨sc, sct, hsc⟩ := List.exists_cons_of_ne_nil h1
  obtain ⟨vc, vct, hvc⟩ := List.exists_cons_of_ne_nil h2
  obtain ⟨w, wt, hv⟩ := List.exists_cons_of_ne_nil h3
  have hw : s.values.head? = some w := by rw [hv]; rfl
  unfold processSeriesIv
  rw [hsc, hvc, hv]
  simp only [List.head?_cons]
  rcases hs w hw with hemp | hsent
  · simp [hemp]
  · by_cases hwe : w.value = []
    · simp [hwe]
    · have hne : w.value.isEmpty = false := List.isEmpty_eq_false.mpr hwe
      obtain ⟨latest, hlast⟩ : ∃ latest, w.value.getLast? = some latest := by
        cases hgl : w.value.getLast? with
        | none => exact absurd (List.getLast?_eq_none_iff.mp hgl) hwe
        | some a => exact ⟨a, rfl⟩
      have hmem : latest ∈ w.value := List.mem_of_mem_getLast? hlast
      rcases hsent latest hmem with ⟨v, hv1, hv2⟩
      have hv2i : |v - s.variable_info.no_data_value| < (10 : ℚ)⁻¹ := by
        rw [← one_div]; exact hv2
      simp [hne, hlast, hv1, hv2i]

theorem processSeriesDv_ok_nil_of_sentinel (s : TimeSeries)
    (hm : seriesMetaOk s) (hs : seriesEmptyOrSentinel s) :
    processSeriesDv s = .ok [] := by
  obtain ⟨h1, h2, h3⟩ := hm
  obtain ⟨sc, sct, hsc⟩ := List.exists_cons_of_ne_nil h1
  obtain ⟨vc, vct, hvc⟩ := List.exists_cons_of_ne_nil h2
  obtain ⟨w, wt, hv⟩ := List.exists_cons_of_ne_nil h3
  have hw : s.values.head? = some w := by rw [hv]; rfl
  unfold processSeriesDv
  rw [hsc, hvc, hv]
  simp only [List.head?_cons]
  rcases hs w hw with hemp | hsent
  · simp [hemp]
  · by_cases hwe : w.value = []
    · simp [hwe]
    · have hne : w.value.isEmpty = false := List.isEmpty_eq_false.mpr hwe
      simp only [hne, Bool.false_eq_true, if_false, Except.ok.injEq]
      rw [List.filterMap_eq_nil_iff]
      intro e he
      rcases hsent e he with ⟨v, hv1, hv2⟩
      have hv2i : |v - s.variable_info.no_data_value| < (10 : ℚ)⁻¹ := by
        rw [← one_div]; exact hv2
      simp [hv1, hv2i]

theorem goSeriesIv_ok_nil (ls : List TimeSeries)
    (h : ∀ s ∈ ls, seriesMetaOk s ∧ seriesEmptyOrSentinel s) :
    goSeriesIv ls = .ok [] := by
  induction ls with
  | nil => rfl
  | cons s rest ih =>
    have hs := h s (List.mem_cons_self s rest)
    have hrest := ih fun t ht => h t (List.mem_cons_of_mem s ht)
    unfold goSeriesIv
    rw [processSeriesIv_ok_none_of_sentinel s hs.1 hs.2, hrest]

theorem goSeriesDv_ok_nil (ls : List TimeSeries)
    (h : ∀ s ∈ ls, seriesMetaOk s ∧ seriesEmptyOrSentinel s) :
    goSeriesDv ls = .ok [] := by
  induction ls with
  | nil => rfl
  | cons s rest ih =>
    have hs := h s (List.mem_cons_self s rest)
    have hrest := ih fun t ht => h t (List.mem_cons_of_mem s ht)
    unfold goSeriesDv
    rw [processSeriesDv_ok_nil_of_sentinel s hs.1 hs.2, hrest]
    rfl

end Riverviews

namespace Riverviews

theorem processSeriesIv_some_spec (s : TimeSeries) (r : GaugeReading)
    (h : processSeriesIv s = .ok (some r)) :
    (∃ w, s.values.head? = some w ∧
      ∃ e ∈ w.value, e.value = some r.value) ∧
    ¬ |r.value - s.variable_info.no_data_value| < 1/10 := by
  unfold processSeriesIv at h
  cases hsc : s.source_info.site_code.head? with
  | none => rw [hsc] at h; exact absurd h (by simp)
  | some sc =>
  rw [hsc] at h
  cases hvc : s.variable_info.variable_code.head? with
  | none => rw [hvc] at h; exact absurd h (by simp)
  | some vc =>
  rw [hvc] at h
  cases hw : s.values.head? with
  | none => rw [hw] at h; exact absurd h (by simp)
  | some w =>
  rw [hw] at h
  dsimp only at h
  by_cases hemp : w.value.isEmpty
  · rw [if_pos hemp] at h; exact absurd h (by simp)
  · rw [if_neg hemp] at h
    cases hlast : w.value.getLast? with
    | none => rw [hlast] at h; exact absurd h (by simp)
    | some latest =>
    rw [hlast] at h
    dsimp only at h
    cases hlv : latest.value with
    | none => rw [hlv] at h; exact absurd h (by simp)
    | some v =>
    rw [hlv] at h
    dsimp only at h
    by_cases hsent : |v - s.variable_info.no_data_value| < 1/10
    · rw [if_pos hsent] at h; exact absurd h (by simp)
    · rw [if_neg hsent] at h
      have hr : r.value = v := by
        simp only [Except.ok.injEq, Option.some.injEq] at h
        rw [← h]
      refine ⟨⟨w, rfl, latest, List.mem_of_mem_getLast? hlast, by rw [hlv, hr]⟩, ?_⟩
      rw [hr]
      exact hsent

theorem goSeriesIv_mem (ls : List TimeSeries) (r : GaugeReading) :
    ∀ rs, goSeriesIv ls = .ok rs → r ∈ rs →
      ∃ s ∈ ls, processSeriesIv s = .ok (some r) := by
  induction ls with
  | nil =>
    intro rs h hr
    simp only [goSeriesIv, Except.ok.injEq] at h
    subst h
    exact absurd hr (List.not_mem_nil r)
  | cons s rest ih =>
    intro rs h hr
    unfold goSeriesIv at h
    cases hps : processSeriesIv s with
    | error e => rw [hps] at h; exact absurd h (by simp)
    | ok o =>
      rw [hps] at h
      cases o with
      | none =>
        dsimp only at h
        obtain ⟨t, ht, hpt⟩ := ih rs h hr
        exact ⟨t, List.mem_cons_of_mem s ht, hpt⟩
      | some r0 =>
        dsimp only at h
        cases hrec : goSeriesIv rest with
        | error e => rw [hrec] at h; exact absurd h (by simp)
        | ok rs0 =>
          rw [hrec] at h
          simp only [Except.ok.injEq] at h
          subst h
          rcases List.mem_cons.mp hr with hre | hrm
          · subst hre; exact ⟨s, List.mem_cons_self s rest, hps⟩
          · obtain ⟨t, ht, hpt⟩ := ih rs0 hrec hrm
            exact ⟨t, List.mem_cons_of_mem s ht, hpt⟩

theorem processSeriesDv_mem_spec (s : TimeSeries) (rs : List GaugeReading)
    (r : GaugeReading) (h : processSeriesDv s = .ok rs) (hr : r ∈ rs) :
    (∃ w, s.values.head? = some w ∧
      ∃ e ∈ w.value, e.value = some r.value) ∧
    ¬ |r.value - s.variable_info.no_data_value| < 1/10 := by
  unfold processSeriesDv at h
  cases hsc : s.source_info.site_code.head? with
  | none => rw [hsc] at h; exact absurd h (by simp)
  | some sc =>
  rw [hsc] at h
  cases hvc : s.variable_info.variable_code.head? with
  | none => rw [hvc] at h; exact absurd h (by simp)
  | some vc =>
  rw [hvc] at h
  cases hw : s.values.head? with
  | none => rw [hw] at h; exact absurd h (by simp)
  | some w =>
  rw [hw] at h
  dsimp only at h
  by_cases hemp : w.value.isEmpty
  · rw [if_pos hemp] at h
    simp only [Except.ok.injEq] at h
    subst h
    exact absurd hr (List.not_mem_nil r)
  · rw [if_neg hemp] at h
    simp only [Except.ok.injEq] at h
    subst h
    obtain ⟨e, he, hfe⟩ := List.mem_filterMap.mp hr
    cases hev : e.value with
    | none => rw [hev] at hfe; exact absurd hfe (by simp)
    | some v =>
      rw [hev] at hfe
      dsimp only at hfe
      by_cases hsent : |v - s.variable_info.no_data_value| < 1/10
      · rw [if_pos hsent] at hfe; exact absurd hfe (by simp)
      · rw [if_neg hsent] at hfe
        simp only [Option.some.injEq] at hfe
        have hrv : r.value = v := by rw [← hfe]
        refine ⟨⟨w, rfl, e, he, by rw [hev, hrv]⟩, ?_⟩
        rw [hrv]
        exact hsent

theorem goSeriesDv_mem (ls : List TimeSeries) (r : GaugeReading) :
    ∀ rs, goSeriesDv ls = .ok rs → r ∈ rs →
      ∃ s ∈ ls, ∃ rs0, processSeriesDv s = .ok rs0 ∧ r ∈ rs0 := by
  induction ls with
  | nil =>
    intro rs h hr
    simp only [goSeriesDv, Except.ok.injEq] at h
    subst h
    exact absurd hr (List.not_mem_nil r)
  | cons s rest ih =>
    intro rs h hr
    unfold goSeriesDv at h
    cases hps : processSeriesDv s with
    | error e => rw [hps] at h; exact absurd h (by simp)
    | ok rs1 =>
      rw [hps] at h
      dsimp only at h
      cases hrec : goSeriesDv rest with
      | error e => rw [hrec] at h; exact absurd h (by simp)
      | ok rs2 =>
        rw [hrec] at h
        simp only [Except.ok.injEq] at h
        subst h
        rcases List.mem_append.mp hr with h1 | h2
        · exact ⟨s, List.mem_cons_self s rest, rs1, hps, h1⟩
        · obtain ⟨t, ht, rs0, hpt, hrm⟩ := ih rs2 hrec h2
          exact ⟨t, List.mem_cons_of_mem s ht, rs0, hpt, hrm⟩

end Riverviews

namespace Riverviews

theorem parse_iv_ok_go (resp : IvResponse) (readings : List GaugeReading)
    (h : parse_iv_response (some resp) = .ok readings) :
    goSeriesIv resp.value.time_series = .ok readings := by
  unfold parse_iv_response at h
  dsimp only at h
  by_cases h1 : resp.value.time_series.isEmpty
  · rw [if_pos h1] at h; exact absurd h (by simp)
  · rw [if_neg h1] at h
    cases hgo : goSeriesIv resp.value.time_series with
    | error e => rw [hgo] at h; exact absurd h (by simp)
    | ok rs =>
      rw [hgo] at h
      dsimp only at h
      by_cases h2 : rs.isEmpty
      · rw [if_pos h2] at h; exact absurd h (by simp)
      · rw [if_neg h2] at h
        simp only [Except.ok.injEq] at h
        rw [← h]

theorem parse_dv_ok_go (resp : IvResponse) (readings : List GaugeReading)
    (h : parse_dv_response (some resp) = .ok readings) :
    goSeriesDv resp.value.time_series = .ok readings := by
  unfold parse_dv_response at h
  dsimp only at h
  by_cases h1 : resp.value.time_series.isEmpty
  · rw [if_pos h1] at h; exact absurd h (by simp)
  · rw [if_neg h1] at h
    cases hgo : goSeriesDv resp.value.time_series with
    | error e => rw [hgo] at h; exact absurd h (by simp)
    | ok rs =>
      rw [hgo] at h
      dsimp only at h
      by_cases h2 : rs.isEmpty
      · rw [if_pos h2] at h; exact absurd h (by simp)
      · rw [if_neg h2] at h
        simp only [Except.ok.injEq] at h
        rw [← h]

end Riverviews

namespace Riverviews

/-! ### Claim C7 — defensive parsing -/

/-- C7: both parsers return `ParseError` on an undecodable payload; they
return `NoDataAvailable` when the `timeSeries` array is empty and when
every series is well-shaped but carries only an empty value list or
sentinel-valued entries; and every reading of a successful parse takes its
value unaltered from an entry of its series and is never within 0.1 of
that series no-data sentinel. -/
theorem parse_responses_defensive :
    (parse_iv_response none = .error (.ParseError "JSON deserialization failed") ∧
     parse_dv_response none = .error (.ParseError "JSON deserialization failed")) ∧
    (∀ resp : IvResponse, resp.value.time_series = [] →
      parse_iv_response (some resp) =
        .error (.NoDataAvailable "No timeSeries entries in response") ∧
      parse_dv_response (some resp) =
        .error (.NoDataAvailable "No timeSeries entries in response")) ∧
    (∀ resp : IvResponse, resp.value.time_series ≠ [] →
      (∀ s ∈ resp.value.time_series, seriesMetaOk s ∧ seriesEmptyOrSentinel s) →
      parse_iv_response (some resp) =
        .error (.NoDataAvailable "All timeSeries entries were empty or contained sentinel values") ∧
      parse_dv_response (some resp) =
        .error (.NoDataAvailable "All timeSeries entries were empty or contained sentinel values")) ∧
    (∀ (resp : IvResponse) (readings : List GaugeReading),
      parse_iv_response (some resp) = .ok readings →
      ∀ r ∈ readings, ∃ s ∈ resp.value.time_series,
        (∃ w, s.values.head? = some w ∧ ∃ e ∈ w.value, e.value = some r.value) ∧
        ¬ |r.value - s.variable_info.no_data_value| < 1/10) ∧
    (∀ (resp : IvResponse) (readings : List GaugeReading),
      parse_dv_response (some resp) = .ok readings →
      ∀ r ∈ readings, ∃ s ∈ resp.value.time_series,
        (∃ w, s.values.head? = some w ∧ ∃ e ∈ w.value, e.value = some r.value) ∧
        ¬ |r.value - s.variable_info.no_data_value| < 1/10) := by
  refine ⟨⟨rfl, rfl⟩, ?_, ?_, ?_, ?_⟩
  · intro resp h
    constructor <;> simp [parse_iv_response, parse_dv_response, h]
  · intro resp hne hall
    constructor
    · simp [parse_iv_response, goSeriesIv_ok_nil _ hall, List.isEmpty_eq_false.mpr hne]
    · simp [parse_dv_response, goSeriesDv_ok_nil _ hall, List.isEmpty_eq_false.mpr hne]
  · intro resp readings h r hr
    obtain ⟨s, hs, hps⟩ :=
      goSeriesIv_mem resp.value.time_series r readings (parse_iv_ok_go resp readings h) hr
    obtain ⟨hex, hns⟩ := processSeriesIv_some_spec s r hps
    exact ⟨s, hs, hex, hns⟩
  · intro resp readings h r hr
    obtain ⟨s, hs, rs0, hps, hrm⟩ :=
      goSeriesDv_mem resp.value.time_series r readings (parse_dv_ok_go resp readings h) hr
    obtain ⟨hex, hns⟩ := processSeriesDv_mem_spec s rs0 r hps hrm
    exact ⟨s, hs, hex, hns⟩

/-- A well-shaped series whose only entry parses to the USGS sentinel
`-999999`. -/
def sentinelOnlySeries : TimeSeries :=
  { source_info :=
      { site_name := "Illinois River at Kingston Mines, IL"
        site_code := [{ value := "05568500" }] }
    variable_info :=
      { variable_code := [{ value := "00060" }]
        unit := { unit_code := "ft3/s" }
        no_data_value := -999999 }
    values :=
      [{ value :=
          [{ value := some (-999999)
             qualifiers := ["P"]
             date_time := "2024-05-01T12:00:00.000-05:00" }] }] }

/-- Witness for C7: on an undecodable payload the IV parser yields the
`ParseError`, and on a response whose single series carries only the
sentinel it yields the `NoDataAvailable` outcome. -/
theorem parse_responses_defensive_witness :
    parse_iv_response none = .error (.ParseError "JSON deserialization failed") ∧
    parse_iv_response (some { value := { time_series := [sentinelOnlySeries] } }) =
      .error (.NoDataAvailable "All timeSeries entries were empty or contained sentinel values") := by
  constructor
  · exact parse_responses_defensive.1.1
  · refine (parse_responses_defensive.2.2.1
      { value := { time_series := [sentinelOnlySeries] } } (by simp) ?_).1
    intro s hs
    have hseq : s = sentinelOnlySeries := by simpa using hs
    subst hseq
    refine ⟨⟨by simp [sentinelOnlySeries], by simp [sentinelOnlySeries],
      by simp [sentinelOnlySeries]⟩, ?_⟩
    intro w hw
    right
    intro e he
    simp only [sentinelOnlySeries, List.head?_cons, Option.some.injEq] at hw
    rw [← hw] at he
    simp only [List.mem_singleton] at he
    subst he
    refine ⟨-999999, rfl, ?_⟩
    norm_num [sentinelOnlySeries]

end Riverviews

namespace Riverviews

theorem processSeriesIv_eq_tail (s : TimeSeries)
    (hm : seriesMetaOk s) (hl : seriesLastParses s) :
    processSeriesIv s = .ok (seriesTailReading s) := by
  obtain ⟨h1, h2, h3⟩ := hm
  obtain ⟨sc, sct, hsc⟩ := List.exists_cons_of_ne_nil h1
  obtain ⟨vc, vct, hvc⟩ := List.exists_cons_of_ne_nil h2
  obtain ⟨w, wt, hv⟩ := List.exists_cons_of_ne_nil h3
  have hw : s.values.head? = some w := by rw [hv]; rfl
  unfold processSeriesIv seriesTailReading
  rw [hsc, hvc, hv]
  simp only [List.head?_cons]
  cases hlast : w.value.getLast? with
  | none =>
    have hwe : w.value = [] := List.getLast?_eq_none_iff.mp hlast
    simp [hwe]
  | some latest =>
    have hne : w.value ≠ [] := by
      intro hh
      rw [hh] at hlast
      exact absurd hlast (by simp)
    have hemp : w.value.isEmpty = false := List.isEmpty_eq_false.mpr hne
    cases hlv : latest.value with
    | none => exact absurd hlv (hl w hw latest hlast)
    | some v =>
      simp only [hemp, Bool.false_eq_true, if_false, hlast, hlv]
      split_ifs <;> rfl

theorem goSeriesIv_eq_filterMap (ls : List TimeSeries)
    (h : ∀ s ∈ ls, seriesMetaOk s ∧ seriesLastParses s) :
    goSeriesIv ls = .ok (ls.filterMap seriesTailReading) := by
  induction ls with
  | nil => rfl
  | cons s rest ih =>
    have hs := h s (List.mem_cons_self s rest)
    have hrest := ih fun t ht => h t (List.mem_cons_of_mem s ht)
    unfold goSeriesIv
    rw [processSeriesIv_eq_tail s hs.1 hs.2]
    cases hts : seriesTailReading s with
    | none => simp only [List.filterMap_cons, hts]; exact hrest
    | some r => simp only [List.filterMap_cons, hts]; rw [hrest]

end Riverviews

namespace Riverviews

/-! ### Claim C6 — one tail reading per series

`parse_iv_response` takes only the LAST entry of each series.  If that
entry is the sentinel the series is skipped entirely — an earlier
non-sentinel value is NOT returned — and if it fails to parse the whole
call fails with `ParseError`.  The claim's fallback clause is therefore
false; the counterexample below exhibits it. -/

/-- The parsed entry values of the first value-wrapper of a series
(diagnostic projection used by the counterexample statement). -/
def entryValuesOf (s : TimeSeries) : Option (List (Option ℚ)) :=
  s.values.head?.map (fun w => w.value.map (fun e => e.value))

/-- A well-shaped series whose earlier entry parses to a non-sentinel 5.0
but whose chronologically last entry is the sentinel `-999999`. -/
def tailSentinelSeries : TimeSeries :=
  { source_info :=
      { site_name := "Illinois River at Kingston Mines, IL"
        site_code := [{ value := "05568500" }] }
    variable_info :=
      { variable_code := [{ value := "00065" }]
        unit := { unit_code := "ft" }
        no_data_value := -999999 }
    values :=
      [{ value :=
          [{ value := some 5
             qualifiers := ["P"]
             date_time := "2024-05-01T11:45:00.000-05:00" }
          ,{ value := some (-999999)
             qualifiers := ["P"]
             date_time := "2024-05-01T12:00:00.000-05:00" }] }] }

/-- Counterexample to C6: the series holds an earlier non-sentinel value
(5.0), its last entry is the sentinel, and `parse_iv_response` returns
`NoDataAvailable` — no Reading carrying the earlier value is returned. -/
theorem parse_iv_no_fallback_counterexample :
    entryValuesOf tailSentinelSeries = some [some 5, some (-999999)] ∧
    ¬ |(5 : ℚ) - tailSentinelSeries.variable_info.no_data_value| < 1/10 ∧
    parse_iv_response (some { value := { time_series := [tailSentinelSeries] } }) =
      .error (.NoDataAvailable "All timeSeries entries were empty or contained sentinel values") := by
  refine ⟨by simp [entryValuesOf, tailSentinelSeries], by norm_num [tailSentinelSeries], ?_⟩
  have hp : processSeriesIv tailSentinelSeries = .ok none := by
    unfold processSeriesIv
    norm_num [tailSentinelSeries]
  simp [parse_iv_response, goSeriesIv, hp]

theorem processSeriesIv_unparsable_tail (s : TimeSeries)
    (hm : seriesMetaOk s) (hl : ¬ seriesLastParses s) :
    processSeriesIv s = .error (.ParseError "Failed to parse value") := by
  obtain ⟨h1, h2, h3⟩ := hm
  obtain ⟨sc, sct, hsc⟩ := List.exists_cons_of_ne_nil h1
  obtain ⟨vc, vct, hvc⟩ := List.exists_cons_of_ne_nil h2
  obtain ⟨w, wt, hv⟩ := List.exists_cons_of_ne_nil h3
  have hw : s.values.head? = some w := by rw [hv]; rfl
  unfold seriesLastParses at hl
  push_neg at hl
  obtain ⟨w2, hw2, e, he, hev⟩ := hl
  have hww : w2 = w := by
    rw [hw] at hw2
    exact (Option.some_inj.mp hw2).symm
  subst hww
  have hne : w2.value ≠ [] := by
    intro hh
    rw [hh] at he
    exact absurd he (by simp)
  have hemp : w2.value.isEmpty = false := List.isEmpty_eq_false.mpr hne
  unfold processSeriesIv
  rw [hsc, hvc, hv]
  simp only [List.head?_cons]
  simp [hemp, he, hev]

theorem goSeriesIv_unparsable (ls : List TimeSeries)
    (hm : ∀ s ∈ ls, seriesMetaOk s) (hex : ∃ s ∈ ls, ¬ seriesLastParses s) :
    goSeriesIv ls = .error (.ParseError "Failed to parse value") := by
  induction ls with
  | nil =>
    obtain ⟨s, hs, -⟩ := hex
    exact absurd hs (List.not_mem_nil s)
  | cons s rest ih =>
    by_cases hls : seriesLastParses s
    · obtain ⟨t, ht, hnt⟩ := hex
      have htr : t ∈ rest := by
        rcases List.mem_cons.mp ht with hte | htr
        · subst hte; exact absurd hls hnt
        · exact htr
      have hrec := ih (fun u hu => hm u (List.mem_cons_of_mem s hu)) ⟨t, htr, hnt⟩
      unfold goSeriesIv
      rw [processSeriesIv_eq_tail s (hm s (List.mem_cons_self s rest)) hls]
      cases hts : seriesTailReading s with
      | none => exact hrec
      | some r =>
        dsimp only
        rw [hrec]
    · unfold goSeriesIv
      rw [processSeriesIv_unparsable_tail s (hm s (List.mem_cons_self s rest)) hls]

/-- C6 (amended): for a response whose series are well-shaped and whose
last entries parse, `parse_iv_response` returns exactly one Reading per
series whose chronologically last entry is non-sentinel, carrying that
last entry's value — a series whose last entry is the sentinel (or whose
value list is empty) contributes nothing, with no fallback to earlier
entries; if no series contributes, the result is `NoDataAvailable`; and a
well-shaped series whose last entry does NOT parse fails the whole call
with `ParseError`. -/
theorem parse_iv_tail_value_characterization :
    (∀ resp : IvResponse,
      (∀ s ∈ resp.value.time_series, seriesMetaOk s ∧ seriesLastParses s) →
      parse_iv_response (some resp) =
        if resp.value.time_series.isEmpty then
          .error (.NoDataAvailable "No timeSeries entries in response")
        else if (resp.value.time_series.filterMap seriesTailReading).isEmpty then
          .error (.NoDataAvailable "All timeSeries entries were empty or contained sentinel values")
        else .ok (resp.value.time_series.filterMap seriesTailReading)) ∧
    (∀ (s : TimeSeries) (r : GaugeReading), seriesTailReading s = some r →
      ∃ w, s.values.head? = some w ∧
        ∃ latest, w.value.getLast? = some latest ∧
          latest.value = some r.value ∧
          ¬ |r.value - s.variable_info.no_data_value| < 1/10) ∧
    (∀ resp : IvResponse,
      (∀ s ∈ resp.value.time_series, seriesMetaOk s) →
      (∃ s ∈ resp.value.time_series, ¬ seriesLastParses s) →
      parse_iv_response (some resp) =
        .error (.ParseError "Failed to parse value")) := by
  refine ⟨?_, ?_, ?_⟩
  · intro resp hall
    unfold parse_iv_response
    dsimp only
    rw [goSeriesIv_eq_filterMap resp.value.time_series hall]
  · intro s r h
    unfold seriesTailReading at h
    cases hsc : s.source_info.site_code.head? with
    | none => rw [hsc] at h; exact absurd h (by simp)
    | some sc =>
    rw [hsc] at h
    cases hvc : s.variable_info.variable_code.head? with
    | none => rw [hvc] at h; exact absurd h (by simp)
    | some vc =>
    rw [hvc] at h
    cases hw : s.values.head? with
    | none => rw [hw] at h; exact absurd h (by simp)
    | some w =>
    rw [hw] at h
    dsimp only at h
    cases hlast : w.value.getLast? with
    | none => rw [hlast] at h; exact absurd h (by simp)
    | some latest =>
    rw [hlast] at h
    dsimp only at h
    cases hlv : latest.value with
    | none => rw [hlv] at h; exact absurd h (by simp)
    | some v =>
    rw [hlv] at h
    dsimp only at h
    by_cases hsent : |v - s.variable_info.no_data_value| < 1/10
    · rw [if_pos hsent] at h; exact absurd h (by simp)
    · rw [if_neg hsent] at h
      simp only [Option.some.injEq] at h
      have hrv : r.value = v := by rw [← h]
      refine ⟨w, rfl, latest, hlast, by rw [hlv, hrv], by rw [hrv]; exact hsent⟩
  · intro resp hm hex
    have hne : resp.value.time_series ≠ [] := by
      obtain ⟨s, hs, -⟩ := hex
      exact List.ne_nil_of_mem hs
    have hef : resp.value.time_series.isEmpty = false := List.isEmpty_eq_false.mpr hne
    unfold parse_iv_response
    dsimp only
    rw [goSeriesIv_unparsable resp.value.time_series hm hex]
    simp [hef]

/-- A well-shaped series whose last entry parses to a non-sentinel 7.25. -/
def tailGoodSeries : TimeSeries :=
  { source_info :=
      { site_name := "Illinois River at Peoria, IL"
        site_code := [{ value := "05567500" }] }
    variable_info :=
      { variable_code := [{ value := "00065" }]
        unit := { unit_code := "ft" }
        no_data_value := -999999 }
    values :=
      [{ value :=
          [{ value := some 7
             qualifiers := ["P"]
             date_time := "2024-05-01T11:45:00.000-05:00" }
          ,{ value := some (29/4)
             qualifiers := ["P"]
             date_time := "2024-05-01T12:00:00.000-05:00" }] }] }

/-- A well-shaped series whose single entry's wire value string does not
parse to a number. -/
def tailUnparsableSeries : TimeSeries :=
  { source_info :=
      { site_name := "Illinois River at Henry, IL"
        site_code := [{ value := "05558300" }] }
    variable_info :=
      { variable_code := [{ value := "00065" }]
        unit := { unit_code := "ft" }
        no_data_value := -999999 }
    values :=
      [{ value :=
          [{ value := none
             qualifiers := ["P"]
             date_time := "2024-05-01T12:00:00.000-05:00" }] }] }

/-- Witness for C6 (amended): instantiated on a one-series response whose
last entry is a valid 7.25 ft stage, the parse yields exactly that one
tail reading; and on a one-series response whose last entry does not
parse, the whole call fails with `ParseError`. -/
theorem parse_iv_tail_value_characterization_witness :
    (parse_iv_response (some { value := { time_series := [tailGoodSeries] } }) =
      if ([tailGoodSeries] : List TimeSeries).isEmpty then
        .error (.NoDataAvailable "No timeSeries entries in response")
      else if (([tailGoodSeries] : List TimeSeries).filterMap seriesTailReading).isEmpty then
        .error (.NoDataAvailable "All timeSeries entries were empty or contained sentinel values")
      else .ok (([tailGoodSeries] : List TimeSeries).filterMap seriesTailReading)) ∧
    parse_iv_response (some { value := { time_series := [tailUnparsableSeries] } }) =
      .error (.ParseError "Failed to parse value") := by
  constructor
  · refine parse_iv_tail_value_characterization.1
      { value := { time_series := [tailGoodSeries] } } ?_
    intro s hs
    have hseq : s = tailGoodSeries := by simpa using hs
    subst hseq
    refine ⟨⟨by simp [tailGoodSeries], by simp [tailGoodSeries], by simp [tailGoodSeries]⟩, ?_⟩
    intro w hw latest hlatest
    simp only [tailGoodSeries, List.head?_cons, Option.some.injEq] at hw
    rw [← hw] at hlatest
    simp only [List.getLast?_cons_cons, List.getLast?_singleton, Option.some.injEq] at hlatest
    rw [← hlatest]
    simp
  · refine parse_iv_tail_value_characterization.2.2
      { value := { time_series := [tailUnparsableSeries] } } ?_ ?_
    · intro s hs
      have hseq : s = tailUnparsableSeries := by simpa using hs
      subst hseq
      exact ⟨by simp [tailUnparsableSeries], by simp [tailUnparsableSeries],
        by simp [tailUnparsableSeries]⟩
    · refine ⟨tailUnparsableSeries, by simp, ?_⟩
      intro hc
      exact hc _ rfl _ rfl rfl

end Riverviews

namespace Riverviews

/-! ## daemon.rs / bin/historical_ingest.rs — idempotent persistence

`INSERT ... ON CONFLICT (site_code, parameter_code, reading_time)
DO NOTHING` is modelled as a keyed conditional append returning the number
of affected rows (1 on insert, 0 on conflict). -/

/-- A row of `usgs_raw.gauge_readings` as written by
`Daemon::warehouse_readings` (`src/daemon.rs` lines 711-724);
`reading_time` is the parsed timestamp. -/
structure GaugeReadingRow where
  site_code : String
  parameter_code : String
  unit : String
  value : ℚ
  reading_time : Int
  qualifier : String
deriving Repr, DecidableEq

/-- The `ON CONFLICT` key match on `(site_code, parameter_code,
reading_time)`. -/
def sameKey (site param : String) (t : Int) (r : GaugeReadingRow) : Bool :=
  r.site_code == site && r.parameter_code == param && r.reading_time == t

/-- Whether an existing row conflicts with the row being inserted. -/
def rowConflicts (row r : GaugeReadingRow) : Bool :=
  sameKey row.site_code row.parameter_code row.reading_time r

/-- `INSERT ... ON CONFLICT DO NOTHING` on `usgs_raw.gauge_readings`:
returns the table and the number of rows affected. -/
def insertGaugeReading (db : List GaugeReadingRow) (row : GaugeReadingRow) :
    List GaugeReadingRow × Nat :=
  if db.any (rowConflicts row) then (db, 0) else (db ++ [row], 1)

/-- The row bound by the insert of `Daemon::warehouse_readings`
(`src/daemon.rs` lines 716-723), with the parsed timestamp `t`. -/
def rowOf (r : GaugeReading) (t : Int) : GaugeReadingRow :=
  { site_code := r.site_code
    parameter_code := r.parameter_code
    unit := r.unit
    value := r.value
    reading_time := t
    qualifier := r.qualifier }

/-- `Daemon::warehouse_readings` (`src/daemon.rs` lines 686-730):
per reading, parse the datetime (an unparsable datetime fails the whole
call), insert with conflict-ignore, and accumulate the inserted count.
`parseDt` stands for the RFC3339/naive chrono parsing chain. -/
def warehouse_readings (parseDt : String → Option Int) :
    List GaugeReading → List GaugeReadingRow →
      Except String (List GaugeReadingRow × Nat)
  | [], db => .ok (db, 0)
  | r :: rest, db =>
    match parseDt r.datetime with
    | none => .error ("Failed to parse datetime " ++ r.datetime)
    | some t =>
      let step := insertGaugeReading db (rowOf r t)
      match warehouse_readings parseDt rest step.1 with
      | .error e => .error e
      | .ok (db2, m) => .ok (db2, step.2 + m)

/-- A row of `usgs_raw.gauge_readings` as written by `store_readings` of
`src/bin/historical_ingest.rs` (lines 176-217), which binds the datetime
string directly. -/
structure HistReadingRow where
  site_code : String
  parameter_code : String
  reading_time : String
  value : ℚ
  qualifiers : String
deriving Repr, DecidableEq

/-- Conflict match for the historical-ingest insert, on
`(site_code, parameter_code, reading_time)`. -/
def histRowConflicts (row r : HistReadingRow) : Bool :=
  r.site_code == row.site_code && r.parameter_code == row.parameter_code &&
    r.reading_time == row.reading_time

/-- `INSERT ... ON CONFLICT DO NOTHING` for the historical insert. -/
def insertHistReading (db : List HistReadingRow) (row : HistReadingRow) :
    List HistReadingRow × Nat :=
  if db.any (histRowConflicts row) then (db, 0) else (db ++ [row], 1)

/-- The row bound by the insert of `store_readings`
(`src/bin/historical_ingest.rs` lines 198-207): the datetime string is
bound directly as `reading_time`. -/
def histRowOf (r : GaugeReading) : HistReadingRow :=
  { site_code := r.site_code
    parameter_code := r.parameter_code
    reading_time := r.datetime
    value := r.value
    qualifiers := r.qualifier }

/-- `store_readings` from `src/bin/historical_ingest.rs` (lines 176-217):
inserts every reading with conflict-ignore inside one transaction and
counts the inserted rows. -/
def store_readings : List GaugeReading → List HistReadingRow →
    List HistReadingRow × Nat
  | [], db => (db, 0)
  | r :: rest, db =>
    let step := insertHistReading db (histRowOf r)
    let next := store_readings rest step.1
    (next.1, step.2 + next.2)

/-- Number of rows of the table holding a given conflict key. -/
def countKey (db : List GaugeReadingRow) (site param : String) (t : Int) : Nat :=
  (db.filter (sameKey site param t)).length

theorem insertGaugeReading_self (db : List GaugeReadingRow) (row : GaugeReadingRow) :
    insertGaugeReading (insertGaugeReading db row).1 row =
      ((insertGaugeReading db row).1, 0) := by
  unfold insertGaugeReading
  by_cases h : db.any (rowConflicts row)
  · simp [h]
  · have hself : rowConflicts row row = true := by
      simp [rowConflicts, sameKey]
    simp [h, List.any_append, hself]

theorem insertHistReading_self (db : List HistReadingRow) (row : HistReadingRow) :
    insertHistReading (insertHistReading db row).1 row =
      ((insertHistReading db row).1, 0) := by
  unfold insertHistReading
  by_cases h : db.any (histRowConflicts row)
  · simp [h]
  · have hself : histRowConflicts row row = true := by
      simp [histRowConflicts]
    simp [h, List.any_append, hself]

theorem insertGaugeReading_preserves_unique (db : List GaugeReadingRow)
    (row : GaugeReadingRow) (site param : String) (t : Int)
    (h : countKey db site param t ≤ 1) :
    countKey (insertGaugeReading db row).1 site param t ≤ 1 := by
  unfold insertGaugeReading
  by_cases hc : db.any (rowConflicts row)
  · simpa [hc] using h
  · simp only [hc, Bool.false_eq_true, if_false]
    unfold countKey at h ⊢
    rw [List.filter_append]
    by_cases hk : sameKey site param t row
    · have hzero : db.filter (sameKey site param t) = [] := by
        rw [List.filter_eq_nil_iff]
        intro r hr hkr
        have hany : db.any (rowConflicts row) = true := by
          rw [List.any_eq_true]
          refine ⟨r, hr, ?_⟩
          simp only [sameKey, Bool.and_eq_true, beq_iff_eq] at hk hkr
          simp [rowConflicts, sameKey, hk.1.1, hk.1.2, hk.2, hkr.1.1, hkr.1.2, hkr.2]
        exact absurd hany hc
      simp [hzero, hk]
    · simp only [Bool.not_eq_true] at hk
      simpa [List.filter_cons, hk] using h

theorem warehouse_readings_preserves_unique (parseDt : String → Option Int)
    (rs : List GaugeReading) :
    ∀ (db db2 : List GaugeReadingRow) (n : Nat) (site param : String) (t : Int),
      warehouse_readings parseDt rs db = .ok (db2, n) →
      countKey db site param t ≤ 1 → countKey db2 site param t ≤ 1 := by
  induction rs with
  | nil =>
    intro db db2 n site param t h hu
    simp only [warehouse_readings, Except.ok.injEq, Prod.mk.injEq] at h
    rw [← h.1]
    exact hu
  | cons r rest ih =>
    intro db db2 n site param t h hu
    unfold warehouse_readings at h
    cases hp : parseDt r.datetime with
    | none => rw [hp] at h; exact absurd h (by simp)
    | some tt =>
      rw [hp] at h
      dsimp only at h
      cases hrec : warehouse_readings parseDt rest
          (insertGaugeReading db (rowOf r tt)).1 with
      | error e => rw [hrec] at h; exact absurd h (by simp)
      | ok p =>
        rw [hrec] at h
        simp only [Except.ok.injEq] at h
        simp only [Prod.mk.injEq] at h
        obtain ⟨hdbeq, hneq⟩ := h
        rcases p with ⟨dbp, np⟩
        have := ih _ dbp np site param t hrec
          (insertGaugeReading_preserves_unique db _ site param t hu)
        rw [← hdbeq]
        exact this

end Riverviews

namespace Riverviews

theorem warehouse_readings_single (parseDt : String → Option Int)
    (r : GaugeReading) (t : Int) (db : List GaugeReadingRow)
    (hp : parseDt r.datetime = some t) :
    warehouse_readings parseDt [r] db = .ok (insertGaugeReading db (rowOf r t)) := by
  simp [warehouse_readings, hp]

theorem store_readings_single (r : GaugeReading) (db : List HistReadingRow) :
    store_readings [r] db = insertHistReading db (histRowOf r) := by
  simp [store_readings]

end Riverviews

namespace Riverviews

/-! ### Claim C3 — idempotent storage -/

/-- C3: a write whose `(site_code, parameter_code, reading_time)` key is
already on record is a no-op without error and inserts nothing; writing
the same reading twice — in one batch or across two calls — leaves the
table and the total inserted count exactly as writing it once, and the
at-most-one-row-per-key invariant is preserved; the same holds for the
historical `store_readings`. -/
theorem storing_readings_idempotent :
    (∀ (parseDt : String → Option Int) (r : GaugeReading) (t : Int)
      (db : List GaugeReadingRow),
      parseDt r.datetime = some t →
      (∃ row ∈ db, row.site_code = r.site_code ∧
        row.parameter_code = r.parameter_code ∧ row.reading_time = t) →
      warehouse_readings parseDt [r] db = .ok (db, 0)) ∧
    (∀ (parseDt : String → Option Int) (r : GaugeReading)
      (db : List GaugeReadingRow),
      warehouse_readings parseDt [r, r] db = warehouse_readings parseDt [r] db) ∧
    (∀ (parseDt : String → Option Int) (r : GaugeReading)
      (db db2 : List GaugeReadingRow) (n : Nat),
      warehouse_readings parseDt [r] db = .ok (db2, n) →
      warehouse_readings parseDt [r] db2 = .ok (db2, 0)) ∧
    (∀ (parseDt : String → Option Int) (rs : List GaugeReading)
      (db db2 : List GaugeReadingRow) (n : Nat) (site param : String) (t : Int),
      warehouse_readings parseDt rs db = .ok (db2, n) →
      countKey db site param t ≤ 1 → countKey db2 site param t ≤ 1) ∧
    (∀ (r : GaugeReading) (db : List HistReadingRow),
      store_readings [r, r] db = store_readings [r] db) ∧
    (∀ (r : GaugeReading) (db : List HistReadingRow),
      store_readings [r] (store_readings [r] db).1 = ((store_readings [r] db).1, 0)) := by
  refine ⟨?_, ?_, ?_, ?_, ?_, ?_⟩
  · intro parseDt r t db hp hex
    obtain ⟨row, hmem, h1, h2, h3⟩ := hex
    have hany : db.any (rowConflicts (rowOf r t)) = true := by
      rw [List.any_eq_true]
      exact ⟨row, hmem, by simp [rowConflicts, sameKey, rowOf, h1, h2, h3]⟩
    rw [warehouse_readings_single parseDt r t db hp]
    simp [insertGaugeReading, hany]
  · intro parseDt r db
    cases hp : parseDt r.datetime with
    | none => simp [warehouse_readings, hp]
    | some t =>
      rw [warehouse_readings_single parseDt r t db hp]
      unfold warehouse_readings
      rw [hp]
      dsimp only
      rw [warehouse_readings_single parseDt r t _ hp, insertGaugeReading_self]
      simp
  · intro parseDt r db db2 n h
    cases hp : parseDt r.datetime with
    | none =>
      rw [warehouse_readings, hp] at h
      exact absurd h (by simp)
    | some t =>
      rw [warehouse_readings_single parseDt r t db hp] at h
      simp only [Except.ok.injEq] at h
      have hdb2 : db2 = (insertGaugeReading db (rowOf r t)).1 := by rw [h]
      rw [warehouse_readings_single parseDt r t db2 hp, hdb2, insertGaugeReading_self]
  · intro parseDt rs db db2 n site param t h hu
    exact warehouse_readings_preserves_unique parseDt rs db db2 n site param t h hu
  · intro r db
    rw [store_readings_single r db]
    unfold store_readings
    dsimp only
    rw [store_readings_single r _, insertHistReading_self]
    simp
  · intro r db
    rw [store_readings_single r db, store_readings_single r _, insertHistReading_self]

/-- Witness for C3: a concrete duplicate write — storing a reading whose
key is already on record returns the unchanged one-row table with zero
inserted. -/
theorem storing_readings_idempotent_witness :
    warehouse_readings (fun _ => some 100)
      [{ site_code := "05568500", site_name := "Illinois River at Kingston Mines, IL",
         parameter_code := "00065", unit := "ft", value := 18, datetime := "2024-05-01",
         qualifier := "P" }]
      [{ site_code := "05568500", parameter_code := "00065", unit := "ft",
         value := 18, reading_time := 100, qualifier := "P" }] =
      .ok ([{ site_code := "05568500", parameter_code := "00065", unit := "ft",
              value := 18, reading_time := 100, qualifier := "P" }], 0) :=
  storing_readings_idempotent.1 (fun _ => some 100)
    { site_code := "05568500", site_name := "Illinois River at Kingston Mines, IL",
      parameter_code := "00065", unit := "ft", value := 18, datetime := "2024-05-01",
      qualifier := "P" } 100
    [{ site_code := "05568500", parameter_code := "00065", unit := "ft",
       value := 18, reading_time := 100, qualifier := "P" }]
    rfl
    ⟨{ site_code := "05568500", parameter_code := "00065", unit := "ft",
       value := 18, reading_time := 100, qualifier := "P" },
      List.mem_singleton.mpr rfl, rfl, rfl, rfl⟩

end Riverviews

namespace Riverviews

/-! ## bin/historical_ingest.rs — resumable DV backfill -/

/-- `IngestState` from `src/bin/historical_ingest.rs` (lines 43-63). -/
structure IngestState where
  dv_initialized : Bool
  iv_initialized : Bool
  last_update : Option String
  dv_last_year_completed : Option Int
  site_progress : List (String × String)
deriving Repr, DecidableEq

/-- `impl Default for IngestState` (lines 65-75). -/
def IngestState.default : IngestState :=
  { dv_initialized := false
    iv_initialized := false
    last_update := none
    dv_last_year_completed := none
    site_progress := [] }

/-- `IngestState::mark_dv_year_complete` (lines 108-110). -/
def IngestState.mark_dv_year_complete (st : IngestState) (year : Int) : IngestState :=
  { st with dv_last_year_completed := some year }

/-- The starting year of `ingest_historical_dv` (lines 235-237):
`dv_last_year_completed.map(|y| y + 1).unwrap_or(DV_EARLIEST_YEAR)` with
`DV_EARLIEST_YEAR = 1939`. -/
def dvStartYear (last : Option Int) : Int :=
  match last with
  | some y => y + 1
  | none => 1939

/-- The inclusive year list `start_year..=end_year`. -/
def yearRange (startYear endYear : Int) : List Int :=
  (List.range (endYear + 1 - startYear).toNat).map (fun i => startYear + i)

/-- Observable events of one backfill run: a DV fetch request for a year,
and a persistence of the state (`state.save()`). -/
inductive IngestEvent
  | fetchDV (year : Int)
  | saveState (st : IngestState)
deriving Repr, DecidableEq

/-- Result of a backfill run: its event trace, the table, the final state
and whether the run finished without a fetch error. -/
structure DvRunResult where
  events : List IngestEvent
  db : List HistReadingRow
  state : IngestState
  ok : Bool
deriving Repr, DecidableEq

/-- The `for year in start_year..=end_year` loop of `ingest_historical_dv`
(lines 250-279): each year is fetched (`fetch year = none` models the
error arm, which returns the error immediately, leaving the cursor at the
last completed year); on success the readings are stored, the year is
marked complete and the state is saved before the next iteration. -/
def dvYearLoop (fetch : Int → Option (List GaugeReading)) :
    List Int → List HistReadingRow → IngestState → DvRunResult
  | [], db, st => ⟨[], db, st, true⟩
  | year :: rest, db, st =>
    match fetch year with
    | none => ⟨[IngestEvent.fetchDV year], db, st, false⟩
    | some readings =>
      let db2 := (store_readings readings db).1
      let st2 := st.mark_dv_year_complete year
      let next := dvYearLoop fetch rest db2 st2
      ⟨IngestEvent.fetchDV year :: IngestEvent.saveState st2 :: next.events,
        next.db, next.state, next.ok⟩

/-- `ingest_historical_dv` (lines 224-284): compute the resume year, return
early (marking DV complete) when nothing is left, otherwise run the year
loop and set `dv_initialized` on full success. `endYear` models
`cutoff_date.year()`. -/
def ingest_historical_dv (fetch : Int → Option (List GaugeReading))
    (endYear : Int) (db : List HistReadingRow) (st : IngestState) : DvRunResult :=
  let startYear := dvStartYear st.dv_last_year_completed
  if startYear > endYear then
    ⟨[], db, { st with dv_initialized := true }, true⟩
  else
    let run := dvYearLoop fetch (yearRange startYear endYear) db st
    ⟨run.events, run.db,
      if run.ok then { run.state with dv_initialized := true } else run.state,
      run.ok⟩

/-- The years requested by a run, in request order. -/
def fetchedYears (events : List IngestEvent) : List Int :=
  events.filterMap fun e =>
    match e with
    | .fetchDV y => some y
    | .saveState _ => none

/-- Trace shape check: after every fetch that is not the (failed) final
one, the very next event is a save of a state whose
`dv_last_year_completed` is exactly the fetched year. -/
def savesAfterEachFetch : List IngestEvent → Bool
  | [] => true
  | [IngestEvent.fetchDV _] => true
  | IngestEvent.fetchDV y :: IngestEvent.saveState st :: rest =>
    (st.dv_last_year_completed == some y) && savesAfterEachFetch rest
  | _ => false

theorem dvYearLoop_fetched_is_take (fetch : Int → Option (List GaugeReading))
    (years : List Int) :
    ∀ (db : List HistReadingRow) (st : IngestState),
      ∃ k, fetchedYears (dvYearLoop fetch years db st).events = years.take k := by
  induction years with
  | nil => intro db st; exact ⟨0, rfl⟩
  | cons y rest ih =>
    intro db st
    unfold dvYearLoop
    cases hf : fetch y with
    | none => exact ⟨1, by simp [fetchedYears]⟩
    | some readings =>
      dsimp only
      obtain ⟨k, hk⟩ := ih (store_readings readings db).1 (st.mark_dv_year_complete y)
      refine ⟨k + 1, ?_⟩
      simp only [fetchedYears] at hk
      simp only [fetchedYears, List.filterMap_cons]
      rw [List.take_succ_cons, hk]

theorem dvYearLoop_saves (fetch : Int → Option (List GaugeReading))
    (years : List Int) :
    ∀ (db : List HistReadingRow) (st : IngestState),
      savesAfterEachFetch (dvYearLoop fetch years db st).events = true := by
  induction years with
  | nil => intro db st; rfl
  | cons y rest ih =>
    intro db st
    unfold dvYearLoop
    cases hf : fetch y with
    | none => rfl
    | some readings =>
      dsimp only
      have h2 := ih (store_readings readings db).1 (st.mark_dv_year_complete y)
      unfold savesAfterEachFetch
      simp only [IngestState.mark_dv_year_complete] at h2 ⊢
      simp [h2]

theorem dvYearLoop_complete (fetch : Int → Option (List GaugeReading))
    (years : List Int) :
    ∀ (db : List HistReadingRow) (st : IngestState),
      (∀ y ∈ years, fetch y ≠ none) →
      fetchedYears (dvYearLoop fetch years db st).events = years := by
  induction years with
  | nil => intro db st _; rfl
  | cons y rest ih =>
    intro db st hall
    unfold dvYearLoop
    cases hf : fetch y with
    | none => exact absurd hf (hall y (List.mem_cons_self y rest))
    | some readings =>
      dsimp only
      have h := ih (store_readings readings db).1 (st.mark_dv_year_complete y)
        fun t ht => hall t (List.mem_cons_of_mem y ht)
      simp only [fetchedYears] at h
      simp only [fetchedYears, List.filterMap_cons]
      rw [h]

end Riverviews

namespace Riverviews

theorem yearRange_eq_nil (a b : Int) (h : a > b) : yearRange a b = [] := by
  unfold yearRange
  have hz : (b + 1 - a).toNat = 0 := by omega
  rw [hz]
  rfl

/-! ### Claim C8 — resumable year-by-year backfill -/

/-- C8: a DV backfill run started from a state whose cursor is year N
requests years forming a prefix of exactly N+1, N+2, ... (1939, 1940, ...
when no year is recorded) — never re-requesting a completed year and
never skipping one; after every successfully ingested year the state with
`dv_last_year_completed` set to that year is persisted before the next
year's fetch; and when every fetch succeeds the run requests precisely
the whole range up to the end year. -/
theorem backfill_resumes_at_next_year :
    (∀ n : Int, dvStartYear (some n) = n + 1) ∧
    dvStartYear none = 1939 ∧
    (∀ (fetch : Int → Option (List GaugeReading)) (endYear : Int)
      (db : List HistReadingRow) (st : IngestState),
      (∃ k, fetchedYears (ingest_historical_dv fetch endYear db st).events =
        (yearRange (dvStartYear st.dv_last_year_completed) endYear).take k) ∧
      savesAfterEachFetch (ingest_historical_dv fetch endYear db st).events = true) ∧
    (∀ (fetch : Int → Option (List GaugeReading)) (endYear : Int)
      (db : List HistReadingRow) (st : IngestState),
      (∀ y ∈ yearRange (dvStartYear st.dv_last_year_completed) endYear,
        fetch y ≠ none) →
      fetchedYears (ingest_historical_dv fetch endYear db st).events =
        yearRange (dvStartYear st.dv_last_year_completed) endYear) := by
  refine ⟨fun n => rfl, rfl, ?_, ?_⟩
  · intro fetch endYear db st
    unfold ingest_historical_dv
    dsimp only
    by_cases h : dvStartYear st.dv_last_year_completed > endYear
    · rw [if_pos h]
      exact ⟨⟨0, rfl⟩, rfl⟩
    · rw [if_neg h]
      dsimp only
      exact ⟨dvYearLoop_fetched_is_take fetch _ db st, dvYearLoop_saves fetch _ db st⟩
  · intro fetch endYear db st hall
    unfold ingest_historical_dv
    dsimp only
    by_cases h : dvStartYear st.dv_last_year_completed > endYear
    · rw [if_pos h, yearRange_eq_nil _ _ h]
      rfl
    · rw [if_neg h]
      dsimp only
      exact dvYearLoop_complete fetch _ db st hall

/-- The state after a run interrupted just past year 1939. -/
def resumeState : IngestState :=
  { dv_initialized := false
    iv_initialized := false
    last_update := none
    dv_last_year_completed := some 1939
    site_progress := [] }

/-- Witness for C8: restarting from a cursor at 1939 with every fetch
succeeding requests exactly the years 1940..1941 — the full remaining
range, starting at 1940. -/
theorem backfill_resumes_at_next_year_witness :
    fetchedYears
        (ingest_historical_dv (fun _ => some []) 1941 [] resumeState).events =
      yearRange (dvStartYear resumeState.dv_last_year_completed) 1941 ∧
    dvStartYear resumeState.dv_last_year_completed = 1940 :=
  ⟨backfill_resumes_at_next_year.2.2.2 (fun _ => some []) 1941 [] resumeState
    (fun y _ => by simp), rfl⟩

end Riverviews

namespace Riverviews

/-! ## daemon.rs — polling orchestrator

`Daemon::poll_all_stations` (lines 775-829) drives three per-entity loops
(USGS stations, CWMS locations, ASOS stations).  Network polling is
modelled by per-entity oracles returning `Except`; the store is the
row-list model above.  Only the fields the loops read are kept on the
location records. -/

/-- `Station` from `src/stations.rs` (line 37); the registry fields not
read by the daemon loop (coordinates, thresholds, ...) are elided. -/
structure Station where
  site_code : String
  name : String
deriving Repr, DecidableEq

/-- `UsaceLocation` from `src/usace_locations.rs` (line 63); only the
`name` field is read by the poll loop. -/
structure UsaceLocation where
  name : String
deriving Repr, DecidableEq

/-- `AsosLocation` from `src/asos_locations.rs` (line 71); only
`station_id` is read by the poll loop. -/
structure AsosLocation where
  station_id : String
  name : String
deriving Repr, DecidableEq

/-- `iem::AsosObservation` as consumed by
`Daemon::warehouse_asos_observations` (lines 576-626); the meteorological
fields not relevant to the conflict key are elided. -/
structure AsosObservation where
  station_id : String
  timestamp : Int
  precip_1hr_in : Option ℚ
deriving Repr, DecidableEq

/-- A row of `asos_observations`, keyed on
`(station_id, observation_time)`. -/
structure AsosRow where
  station_id : String
  observation_time : Int
deriving Repr, DecidableEq

/-- The conflict-ignoring insert of `warehouse_asos_observations`
(lines 597-620). -/
def insertAsosObservation (db : List AsosRow) (obs : AsosObservation) :
    List AsosRow × Nat :=
  if db.any fun row =>
      row.station_id == obs.station_id && row.observation_time == obs.timestamp
  then (db, 0)
  else (db ++ [{ station_id := obs.station_id, observation_time := obs.timestamp }], 1)

/-- `Daemon::warehouse_asos_observations` (lines 576-626): idempotent
insert of every observation, counting affected rows. -/
def warehouse_asos_observations : List AsosObservation → List AsosRow →
    List AsosRow × Nat
  | [], db => (db, 0)
  | obs :: rest, db =>
    let step := insertAsosObservation db obs
    let next := warehouse_asos_observations rest step.1
    (next.1, step.2 + next.2)

/-- A row of `usgs_raw.monitoring_state`, which is keyed by `site_code`
(the `ON CONFLICT (site_code)` target of lines 742-751 and 761-768). -/
structure MonitoringStateRow where
  parameter_code : String
  last_poll_attempted : Int
  latest_reading_time : Option Int
  consecutive_failures : Int
deriving Repr, DecidableEq

/-- `INSERT ... ON CONFLICT (site_code) DO UPDATE` over the
`monitoring_state` association list: insert `ins` when the key is absent,
apply `upd` to the existing row otherwise. -/
def upsertMonRow (db : List (String × MonitoringStateRow)) (site : String)
    (ins : MonitoringStateRow) (upd : MonitoringStateRow → MonitoringStateRow) :
    List (String × MonitoringStateRow) :=
  match db with
  | [] => [(site, ins)]
  | (k, v) :: rest =>
    if k == site then (k, upd v) :: rest
    else (k, v) :: upsertMonRow rest site ins upd

/-- `Daemon::update_monitoring_state` (lines 733-754): on success the row
gets `last_poll_attempted = now`, `latest_reading_time = latest` and
`consecutive_failures = 0`, inserting a fresh `00060` row if absent. -/
def update_monitoring_state (db : List (String × MonitoringStateRow))
    (site_code : String) (latest : Option Int) (now : Int) :
    List (String × MonitoringStateRow) :=
  upsertMonRow db site_code
    { parameter_code := "00060"
      last_poll_attempted := now
      latest_reading_time := latest
      consecutive_failures := 0 }
    (fun row =>
      { row with
        last_poll_attempted := now
        latest_reading_time := latest
        consecutive_failures := 0 })

/-- `Daemon::record_failure` (lines 757-772): on failure the counter is
incremented (inserted at 1 if the row is absent); the latest reading time
is left untouched. -/
def record_failure (db : List (String × MonitoringStateRow))
    (site_code : String) (now : Int) : List (String × MonitoringStateRow) :=
  upsertMonRow db site_code
    { parameter_code := "00060"
      last_poll_attempted := now
      latest_reading_time := none
      consecutive_failures := 1 }
    (fun row =>
      { row with
        last_poll_attempted := now
        consecutive_failures := row.consecutive_failures + 1 })

/-- The USGS arm of `poll_all_stations` (lines 779-799): per station, poll
(`pollStation` is the network oracle); on success warehouse the readings
(a persistence error still aborts the cycle, as the Rust `?` does),
update the monitoring state with the max parsed reading timestamp, and
record the inserted count; on a poll failure record the failure and a
zero count, and continue with the remaining stations. -/
def pollUsgsLoop (pollStation : String → Except String (List GaugeReading))
    (parseDt parseRfc : String → Option Int) (now : Int) :
    List Station → List GaugeReadingRow → List (String × MonitoringStateRow) →
      List (String × Nat) →
      Except String
        (List GaugeReadingRow × List (String × MonitoringStateRow) × List (String × Nat))
  | [], db, mon, results => .ok (db, mon, results)
  | station :: rest, db, mon, results =>
    match pollStation station.site_code with
    | .ok readings =>
      match warehouse_readings parseDt readings db with
      | .error e => .error e
      | .ok (db2, inserted) =>
        let latest := (readings.filterMap fun r => parseRfc r.datetime).max?
        let mon2 := update_monitoring_state mon station.site_code latest now
        pollUsgsLoop pollStation parseDt parseRfc now rest db2 mon2
          (results ++ [("USGS:" ++ station.site_code, inserted)])
    | .error _ =>
      let mon2 := record_failure mon station.site_code now
      pollUsgsLoop pollStation parseDt parseRfc now rest db mon2
        (results ++ [("USGS:" ++ station.site_code, 0)])

/-- The CWMS arm of `poll_all_stations` (lines 802-812): a failed location
records a zero count and the loop proceeds. -/
def pollCwmsLoop (pollCwms : UsaceLocation → Except String Nat) :
    List UsaceLocation → List (String × Nat) → List (String × Nat)
  | [], results => results
  | location :: rest, results =>
    match pollCwms location with
    | .ok inserted =>
      pollCwmsLoop pollCwms rest (results ++ [("CWMS:" ++ location.name, inserted)])
    | .error _ =>
      pollCwmsLoop pollCwms rest (results ++ [("CWMS:" ++ location.name, 0)])

/-- The ASOS arm of `poll_all_stations` (lines 815-826): successful polls
are warehoused; a failed poll records a zero count and the loop
proceeds. -/
def pollAsosLoop (pollAsos : AsosLocation → Except String (List AsosObservation)) :
    List AsosLocation → List AsosRow → List (String × Nat) →
      List AsosRow × List (String × Nat)
  | [], adb, results => (adb, results)
  | location :: rest, adb, results =>
    match pollAsos location with
    | .ok observations =>
      let w := warehouse_asos_observations observations adb
      pollAsosLoop pollAsos rest w.1
        (results ++ [("ASOS:" ++ location.station_id, w.2)])
    | .error _ =>
      pollAsosLoop pollAsos rest adb
        (results ++ [("ASOS:" ++ location.station_id, 0)])

/-- `Daemon::poll_all_stations` (lines 775-829): the three per-entity
loops in sequence, accumulating a result entry per entity. -/
def poll_all_stations (pollStation : String → Except String (List GaugeReading))
    (pollCwms : UsaceLocation → Except String Nat)
    (pollAsos : AsosLocation → Except String (List AsosObservation))
    (parseDt parseRfc : String → Option Int) (now : Int)
    (stations : List Station) (cwms : List UsaceLocation) (asos : List AsosLocation)
    (db : List GaugeReadingRow) (mon : List (String × MonitoringStateRow))
    (adb : List AsosRow) :
    Except String
      (List GaugeReadingRow × List (String × MonitoringStateRow) ×
        List AsosRow × List (String × Nat)) :=
  match pollUsgsLoop pollStation parseDt parseRfc now stations db mon [] with
  | .error e => .error e
  | .ok (db2, mon2, results1) =>
    let results2 := pollCwmsLoop pollCwms cwms results1
    let ar := pollAsosLoop pollAsos asos adb results2
    .ok (db2, mon2, ar.1, ar.2)

end Riverviews

namespace Riverviews

theorem pollUsgsLoop_results_mono (pollStation : String → Except String (List GaugeReading))
    (parseDt parseRfc : String → Option Int) (now : Int) (stations : List Station) :
    ∀ db mon results db2 mon2 results2 (x : String × Nat),
      pollUsgsLoop pollStation parseDt parseRfc now stations db mon results =
        .ok (db2, mon2, results2) →
      x ∈ results → x ∈ results2 := by
  induction stations with
  | nil =>
    intro db mon results db2 mon2 results2 x h hx
    simp only [pollUsgsLoop, Except.ok.injEq, Prod.mk.injEq] at h
    rw [← h.2.2]
    exact hx
  | cons station rest ih =>
    intro db mon results db2 mon2 results2 x h hx
    unfold pollUsgsLoop at h
    cases hps : pollStation station.site_code with
    | ok readings =>
      rw [hps] at h
      dsimp only at h
      cases hwh : warehouse_readings parseDt readings db with
      | error e => rw [hwh] at h; exact absurd h (by simp)
      | ok p =>
        rcases p with ⟨dbw, inserted⟩
        rw [hwh] at h
        dsimp only at h
        exact ih _ _ _ _ _ _ x h (List.mem_append_left _ hx)
    | error e =>
      rw [hps] at h
      dsimp only at h
      exact ih _ _ _ _ _ _ x h (List.mem_append_left _ hx)

theorem pollUsgsLoop_results_complete (pollStation : String → Except String (List GaugeReading))
    (parseDt parseRfc : String → Option Int) (now : Int) (stations : List Station) :
    ∀ db mon results db2 mon2 results2,
      pollUsgsLoop pollStation parseDt parseRfc now stations db mon results =
        .ok (db2, mon2, results2) →
      ∀ s ∈ stations, ∃ n, ("USGS:" ++ s.site_code, n) ∈ results2 := by
  induction stations with
  | nil =>
    intro db mon results db2 mon2 results2 _ s hs
    exact absurd hs (List.not_mem_nil s)
  | cons station rest ih =>
    intro db mon results db2 mon2 results2 h s hs
    unfold pollUsgsLoop at h
    cases hps : pollStation station.site_code with
    | ok readings =>
      rw [hps] at h
      dsimp only at h
      cases hwh : warehouse_readings parseDt readings db with
      | error e => rw [hwh] at h; exact absurd h (by simp)
      | ok p =>
        rcases p with ⟨dbw, inserted⟩
        rw [hwh] at h
        dsimp only at h
        rcases List.mem_cons.mp hs with hse | hsr
        · subst hse
          refine ⟨inserted, ?_⟩
          exact pollUsgsLoop_results_mono pollStation parseDt parseRfc now rest
            _ _ _ _ _ _ _ h
            (List.mem_append_right _ (List.mem_singleton.mpr rfl))
        · exact ih _ _ _ _ _ _ h s hsr
    | error e =>
      rw [hps] at h
      dsimp only at h
      rcases List.mem_cons.mp hs with hse | hsr
      · subst hse
        refine ⟨0, ?_⟩
        exact pollUsgsLoop_results_mono pollStation parseDt parseRfc now rest
          _ _ _ _ _ _ _ h
          (List.mem_append_right _ (List.mem_singleton.mpr rfl))
      · exact ih _ _ _ _ _ _ h s hsr

theorem pollCwmsLoop_mono (pollCwms : UsaceLocation → Except String Nat)
    (locs : List UsaceLocation) :
    ∀ results (x : String × Nat),
      x ∈ results → x ∈ pollCwmsLoop pollCwms locs results := by
  induction locs with
  | nil => intro results x hx; exact hx
  | cons location rest ih =>
    intro results x hx
    unfold pollCwmsLoop
    cases hpc : pollCwms location with
    | ok inserted => exact ih _ x (List.mem_append_left _ hx)
    | error e => exact ih _ x (List.mem_append_left _ hx)

theorem pollCwmsLoop_complete (pollCwms : UsaceLocation → Except String Nat)
    (locs : List UsaceLocation) :
    ∀ results, ∀ l ∈ locs,
      ∃ n, ("CWMS:" ++ l.name, n) ∈ pollCwmsLoop pollCwms locs results := by
  induction locs with
  | nil => intro results l hl; exact absurd hl (List.not_mem_nil l)
  | cons location rest ih =>
    intro results l hl
    unfold pollCwmsLoop
    cases hpc : pollCwms location with
    | ok inserted =>
      rcases List.mem_cons.mp hl with hle | hlr
      · subst hle
        exact ⟨inserted, pollCwmsLoop_mono pollCwms rest _ _
          (List.mem_append_right _ (List.mem_singleton.mpr rfl))⟩
      · exact ih _ l hlr
    | error e =>
      rcases List.mem_cons.mp hl with hle | hlr
      · subst hle
        exact ⟨0, pollCwmsLoop_mono pollCwms rest _ _
          (List.mem_append_right _ (List.mem_singleton.mpr rfl))⟩
      · exact ih _ l hlr

theorem pollAsosLoop_mono (pollAsos : AsosLocation → Except String (List AsosObservation))
    (locs : List AsosLocation) :
    ∀ adb results (x : String × Nat),
      x ∈ results → x ∈ (pollAsosLoop pollAsos locs adb results).2 := by
  induction locs with
  | nil => intro adb results x hx; exact hx
  | cons location rest ih =>
    intro adb results x hx
    unfold pollAsosLoop
    cases hpa : pollAsos location with
    | ok observations => exact ih _ _ x (List.mem_append_left _ hx)
    | error e => exact ih _ _ x (List.mem_append_left _ hx)

theorem pollAsosLoop_complete (pollAsos : AsosLocation → Except String (List AsosObservation))
    (locs : List AsosLocation) :
    ∀ adb results, ∀ a ∈ locs,
      ∃ n, ("ASOS:" ++ a.station_id, n) ∈ (pollAsosLoop pollAsos locs adb results).2 := by
  induction locs with
  | nil => intro adb results a ha; exact absurd ha (List.not_mem_nil a)
  | cons location rest ih =>
    intro adb results a ha
    unfold pollAsosLoop
    cases hpa : pollAsos location with
    | ok observations =>
      rcases List.mem_cons.mp ha with hae | har
      · subst hae
        exact ⟨(warehouse_asos_observations observations adb).2,
          pollAsosLoop_mono pollAsos rest _ _ _
            (List.mem_append_right _ (List.mem_singleton.mpr rfl))⟩
      · exact ih _ _ a har
    | error e =>
      rcases List.mem_cons.mp ha with hae | har
      · subst hae
        exact ⟨0, pollAsosLoop_mono pollAsos rest _ _ _
          (List.mem_append_right _ (List.mem_singleton.mpr rfl))⟩
      · exact ih _ _ a har

theorem lookup_upsertMonRow (site : String) (ins : MonitoringStateRow)
    (upd : MonitoringStateRow → MonitoringStateRow) :
    ∀ db : List (String × MonitoringStateRow),
      List.lookup site (upsertMonRow db site ins upd) =
        some (((List.lookup site db).map upd).getD ins) := by
  intro db
  induction db with
  | nil => simp [upsertMonRow, List.lookup]
  | cons kv rest ih =>
    rcases kv with ⟨k, v⟩
    unfold upsertMonRow
    by_cases hk : k = site
    · subst hk
      simp [List.lookup]
    · have h1 : (k == site) = false := by simp [hk]
      have h2 : (site == k) = false := by simp [Ne.symm hk]
      simp [List.lookup, h1, h2, ih]

end Riverviews

namespace Riverviews

/-! ### Claim C9 — per-entity failure isolation in the poll cycle

The frozen claim quantifies the counter semantics over "all configured
entities", but `poll_all_stations` keeps a consecutive-failure counter
only for USGS stations: the CWMS arm (daemon.rs lines 802-812) and the
ASOS arm (lines 815-826) record a zero-count result entry on failure and
touch no `monitoring_state` row.  The counterexample below exhibits a
cycle in which a CWMS location and an ASOS station both fail while the
monitoring-state table is returned unchanged. -/

/-- Counterexample to C9: with no USGS stations, one CWMS location and one
ASOS station whose polls both fail, the cycle completes, records a
zero-count result entry for each failed entity, and returns the
monitoring-state table — the only consecutive-failure store — exactly as
it was: no entity's consecutive-failure counter is incremented, against
the claim's "a failure on any single entity/source increments that
entity's consecutive-failure counter". -/
theorem poll_cwms_asos_failure_no_counter_counterexample :
    poll_all_stations (fun _ => .error "usgs down")
        (fun _ => .error "cwms gateway timeout") (fun _ => .error "asos down")
        (fun _ => none) (fun _ => none) 1000
        [] [{ name := "Grafton" }] [{ station_id := "KPIA", name := "Peoria" }]
        []
        [("05568500",
          { parameter_code := "00060", last_poll_attempted := 900,
            latest_reading_time := some 800, consecutive_failures := 2 })]
        [] =
      .ok ([],
        [("05568500",
          { parameter_code := "00060", last_poll_attempted := 900,
            latest_reading_time := some 800, consecutive_failures := 2 })],
        [],
        [("CWMS:" ++ "Grafton", 0), ("ASOS:" ++ "KPIA", 0)]) := rfl

/-- C9 (amended): within one `poll_all_stations` cycle, every configured
entity of every source class receives a result entry even when other
entities fail (a single poll failure never aborts the cycle), a failed
CWMS or ASOS entity being recorded with a zero count; only USGS stations
carry a consecutive-failure counter — the CWMS and ASOS arms never touch
the monitoring state, which together with the gauge table is produced
entirely by the USGS arm; a failed USGS station has its counter
incremented (created at 1 when absent) with its latest-reading time
untouched, and a successful one has its counter reset to zero and its
latest-reading time set to the newest parsed reading timestamp; the two
singleton-step equations pin the loop wiring of `record_failure` and
`update_monitoring_state`. -/
theorem poll_all_stations_isolates_failures :
    (∀ (pollStation : String → Except String (List GaugeReading))
      (pollCwms : UsaceLocation → Except String Nat)
      (pollAsos : AsosLocation → Except String (List AsosObservation))
      (parseDt parseRfc : String → Option Int) (now : Int)
      (stations : List Station) (cwms : List UsaceLocation) (asos : List AsosLocation)
      (db : List GaugeReadingRow) (mon : List (String × MonitoringStateRow))
      (adb : List AsosRow) db2 mon2 adb2 results,
      poll_all_stations pollStation pollCwms pollAsos parseDt parseRfc now
        stations cwms asos db mon adb = .ok (db2, mon2, adb2, results) →
      (∀ s ∈ stations, ∃ n, ("USGS:" ++ s.site_code, n) ∈ results) ∧
      (∀ l ∈ cwms, ∃ n, ("CWMS:" ++ l.name, n) ∈ results) ∧
      (∀ a ∈ asos, ∃ n, ("ASOS:" ++ a.station_id, n) ∈ results)) ∧
    (∀ (mon : List (String × MonitoringStateRow)) (site : String) (now : Int),
      List.lookup site mon = none →
      List.lookup site (record_failure mon site now) =
        some { parameter_code := "00060", last_poll_attempted := now,
               latest_reading_time := none, consecutive_failures := 1 }) ∧
    (∀ (mon : List (String × MonitoringStateRow)) (site : String) (now : Int)
      (row : MonitoringStateRow),
      List.lookup site mon = some row →
      List.lookup site (record_failure mon site now) =
        some { row with last_poll_attempted := now,
                        consecutive_failures := row.consecutive_failures + 1 }) ∧
    (∀ (mon : List (String × MonitoringStateRow)) (site : String)
      (latest : Option Int) (now : Int),
      ((List.lookup site (update_monitoring_state mon site latest now)).map
        fun row => (row.latest_reading_time, row.consecutive_failures)) =
        some (latest, 0)) ∧
    (∀ (pollStation : String → Except String (List GaugeReading))
      (parseDt parseRfc : String → Option Int) (now : Int) (s : Station)
      (readings : List GaugeReading) (db db2 : List GaugeReadingRow)
      (mon : List (String × MonitoringStateRow)) (results : List (String × Nat))
      (inserted : Nat),
      pollStation s.site_code = .ok readings →
      warehouse_readings parseDt readings db = .ok (db2, inserted) →
      pollUsgsLoop pollStation parseDt parseRfc now [s] db mon results =
        .ok (db2,
          update_monitoring_state mon s.site_code
            ((readings.filterMap fun r => parseRfc r.datetime).max?) now,
          results ++ [("USGS:" ++ s.site_code, inserted)])) ∧
    (∀ (pollStation : String → Except String (List GaugeReading))
      (parseDt parseRfc : String → Option Int) (now : Int) (s : Station)
      (e : String) (db : List GaugeReadingRow)
      (mon : List (String × MonitoringStateRow)) (results : List (String × Nat)),
      pollStation s.site_code = .error e →
      pollUsgsLoop pollStation parseDt parseRfc now [s] db mon results =
        .ok (db, record_failure mon s.site_code now,
          results ++ [("USGS:" ++ s.site_code, 0)])) ∧
    (∀ (pollStation : String → Except String (List GaugeReading))
      (pollCwms : UsaceLocation → Except String Nat)
      (pollAsos : AsosLocation → Except String (List AsosObservation))
      (parseDt parseRfc : String → Option Int) (now : Int)
      (stations : List Station) (cwms : List UsaceLocation) (asos : List AsosLocation)
      (db : List GaugeReadingRow) (mon : List (String × MonitoringStateRow))
      (adb : List AsosRow) db2 mon2 adb2 results,
      poll_all_stations pollStation pollCwms pollAsos parseDt parseRfc now
        stations cwms asos db mon adb = .ok (db2, mon2, adb2, results) →
      ∃ results1,
        pollUsgsLoop pollStation parseDt parseRfc now stations db mon [] =
          .ok (db2, mon2, results1)) := by
  refine ⟨?_, ?_, ?_, ?_, ?_, ?_, ?_⟩
  · intro pollStation pollCwms pollAsos parseDt parseRfc now stations cwms asos
      db mon adb db2 mon2 adb2 results h
    unfold poll_all_stations at h
    cases hu : pollUsgsLoop pollStation parseDt parseRfc now stations db mon [] with
    | error e => rw [hu] at h; exact absurd h (by simp)
    | ok p =>
      rcases p with ⟨dbu, monu, resultsu⟩
      rw [hu] at h
      dsimp only at h
      simp only [Except.ok.injEq, Prod.mk.injEq] at h
      obtain ⟨-, -, -, hres⟩ := h
      refine ⟨?_, ?_, ?_⟩
      · intro s hs
        obtain ⟨n, hn⟩ := pollUsgsLoop_results_complete pollStation parseDt parseRfc
          now stations _ _ _ _ _ _ hu s hs
        refine ⟨n, ?_⟩
        rw [← hres]
        exact pollAsosLoop_mono pollAsos asos _ _ _
          (pollCwmsLoop_mono pollCwms cwms _ _ hn)
      · intro l hl
        obtain ⟨n, hn⟩ := pollCwmsLoop_complete pollCwms cwms resultsu l hl
        refine ⟨n, ?_⟩
        rw [← hres]
        exact pollAsosLoop_mono pollAsos asos _ _ _ hn
      · intro a ha
        obtain ⟨n, hn⟩ :=
          pollAsosLoop_complete pollAsos asos adb (pollCwmsLoop pollCwms cwms resultsu) a ha
        refine ⟨n, ?_⟩
        rw [← hres]
        exact hn
  · intro mon site now h
    rw [record_failure, lookup_upsertMonRow, h]
    rfl
  · intro mon site now row h
    rw [record_failure, lookup_upsertMonRow, h]
    rfl
  · intro mon site latest now
    rw [update_monitoring_state, lookup_upsertMonRow]
    cases List.lookup site mon <;> rfl
  · intro pollStation parseDt parseRfc now s readings db db2 mon results inserted
      hpoll hwh
    unfold pollUsgsLoop
    rw [hpoll]
    dsimp only
    rw [hwh]
    rfl
  · intro pollStation parseDt parseRfc now s e db mon results hpoll
    unfold pollUsgsLoop
    rw [hpoll]
    rfl
  · intro pollStation pollCwms pollAsos parseDt parseRfc now stations cwms asos
      db mon adb db2 mon2 adb2 results h
    unfold poll_all_stations at h
    cases hu : pollUsgsLoop pollStation parseDt parseRfc now stations db mon [] with
    | error e => rw [hu] at h; exact absurd h (by simp)
    | ok p =>
      rcases p with ⟨dbu, monu, resultsu⟩
      rw [hu] at h
      dsimp only at h
      simp only [Except.ok.injEq, Prod.mk.injEq] at h
      obtain ⟨hdbeq, hmoneq, -, -⟩ := h
      exact ⟨resultsu, by rw [hdbeq, hmoneq]⟩

/-- Witness for C9: a concrete failed poll of station 05568500 records a
zero-count result, leaves the table untouched, and creates a
consecutive-failure row at 1. -/
theorem poll_all_stations_isolates_failures_witness :
    pollUsgsLoop (fun _ => .error "request timeout") (fun _ => none) (fun _ => none)
        1000 [{ site_code := "05568500", name := "Illinois River at Kingston Mines, IL" }]
        [] [] [] =
      .ok ([], record_failure [] "05568500" 1000, [] ++ [("USGS:" ++ "05568500", 0)]) ∧
    List.lookup "05568500" (record_failure [] "05568500" 1000) =
      some { parameter_code := "00060", last_poll_attempted := 1000,
             latest_reading_time := none, consecutive_failures := 1 } :=
  ⟨poll_all_stations_isolates_failures.2.2.2.2.2.1 (fun _ => .error "request timeout")
      (fun _ => none) (fun _ => none) 1000
      { site_code := "05568500", name := "Illinois River at Kingston Mines, IL" }
      "request timeout" [] [] [] rfl,
    poll_all_stations_isolates_failures.2.1 [] "05568500" 1000 rfl⟩

end Riverviews
